import Mathlib

/-! PHD2 `camera.cpp`: general camera routines

A shallow embedding of the camera bookkeeping of `camera.cpp` (dark library,
gain / binning / timeout / pixel-size setters, the camera factory), followed by
theorems about it.

Conventions of the embedding

* C++ `int` values are `Int`; none of the modelled arithmetic can overflow
  (only comparisons, `wxMax`, `wxMin` and `+ 1` on a search index occur).
* `double` values are exact rationals (`ℚ`).
* A `usImage *` is an address (`ImgPtr`); the null pointer is `none`.  Live
  `usImage` objects are kept in an `ImageHeap`; `delete` removes an object
  from it.  Dereferencing or deleting an address that is not live is
  undefined behaviour in C++ and yields `none` here.
* `std::map<int, usImage *>` (`ExposureImgMap`) is the list of its entries in
  iteration order, i.e. with strictly ascending keys (`ExposureImgMap.WF`).
* `wxCriticalSectionLocker` and `Debug` logging have no effect on the
  sequential behaviour and are left out.
-/

/-! ## Constants -/

def DefaultGuideCameraGain : Int := 95
def DefaultGuideCameraTimeoutMs : Int := 15000
def DefaultUseSubframes : Bool := false
def DefaultPixelSize : ℚ := 0
def DefaultReadDelay : Int := 150
def DefaultLoadDarks : Bool := true
def DefaultLoadDMap : Bool := false

/-- The value `wxNOT_FOUND` returned by `wxString::Find` when there is no match. -/
def wxNOT_FOUND : Int := -1

/-! ## Images, the heap and the dark library -/

/-- The part of `usImage` that `camera.cpp` reads: the exposure duration and the pixels. -/
structure usImage where
  ImgExpDur : Int
  ImageData : List Nat
deriving DecidableEq, Repr

/-- Address of a heap-allocated `usImage`. -/
abbrev ImgPtr := Nat

/-- The live `usImage` objects, by address. -/
structure ImageHeap where
  live : List (ImgPtr × usImage)
deriving DecidableEq, Repr

/-- Reading through a pointer: `none` when the address is not live. -/
def ImageHeap.read (h : ImageHeap) (p : ImgPtr) : Option usImage :=
  h.live.lookup p

/-- The C++ `delete p` for a non-null `p`: `none` (undefined behaviour) when `p` is not live. -/
def ImageHeap.delete (h : ImageHeap) (p : ImgPtr) : Option ImageHeap :=
  match h.read p with
  | none => none
  | some _ => some { live := h.live.filter (fun e => e.1 != p) }

/-- The entries of a `std::map<int, usImage *>` in iteration order. -/
structure ExposureImgMap where
  entries : List (Int × ImgPtr)
deriving DecidableEq, Repr

/-- Keys of a `std::map` are strictly ascending in iteration order. -/
def ExposureImgMap.WF (m : ExposureImgMap) : Prop :=
  m.entries.Pairwise (fun a b => a.1 < b.1)

instance (m : ExposureImgMap) : Decidable m.WF := by
  unfold ExposureImgMap.WF; infer_instance

/-- The exposure durations stored in the map, ascending. -/
def ExposureImgMap.keys (m : ExposureImgMap) : List Int :=
  m.entries.map Prod.fst

/-- Number of stored entries: `Darks.size()`. -/
def ExposureImgMap.size (m : ExposureImgMap) : Nat :=
  m.entries.length

def findEntry : List (Int × ImgPtr) → Int → Option ImgPtr
  | [], _ => none
  | (k, v) :: rest, key => if key = k then some v else findEntry rest key

/-- The lookup `Darks.find(key)`: `none` stands for `Darks.end()`. -/
def ExposureImgMap.find (m : ExposureImgMap) (key : Int) : Option ImgPtr :=
  findEntry m.entries key

def assignEntry : List (Int × ImgPtr) → Int → ImgPtr → List (Int × ImgPtr)
  | [], key, v => [(key, v)]
  | (k, w) :: rest, key, v =>
    if key < k then (key, v) :: (k, w) :: rest
    else if key = k then (k, v) :: rest
    else (k, w) :: assignEntry rest key v

/-- The assignment `Darks[key] = v`. -/
def ExposureImgMap.assign (m : ExposureImgMap) (key : Int) (v : ImgPtr) : ExposureImgMap :=
  { entries := assignEntry m.entries key v }

/-! ## The profile store -/

/-- A value held by one profile entry. -/
inductive ProfileValue where
  | int (v : Int)
  | bool (v : Bool)
  | double (v : ℚ)
deriving DecidableEq, Repr

/-- Modelled from the spec: the profile store `pConfig->Profile`, whose class is not in
`camera.cpp`.  The spec calls it "a profile store" to which the setters "persist"; it is a
key-value store in which a setter replaces the entry of its key and a getter returns the
entry of its key, or the given default when there is none of the requested kind. -/
structure ConfigSection where
  entries : List (String × ProfileValue)
deriving DecidableEq, Repr

def ConfigSection.set (p : ConfigSection) (key : String) (v : ProfileValue) : ConfigSection :=
  { entries := (key, v) :: p.entries.filter (fun e => e.1 != key) }

def ConfigSection.SetInt (p : ConfigSection) (key : String) (v : Int) : ConfigSection :=
  p.set key (.int v)

def ConfigSection.SetBoolean (p : ConfigSection) (key : String) (v : Bool) : ConfigSection :=
  p.set key (.bool v)

def ConfigSection.SetDouble (p : ConfigSection) (key : String) (v : ℚ) : ConfigSection :=
  p.set key (.double v)

def ConfigSection.GetInt (p : ConfigSection) (key : String) (dflt : Int) : Int :=
  match p.entries.lookup key with
  | some (.int v) => v
  | _ => dflt

def ConfigSection.GetBoolean (p : ConfigSection) (key : String) (dflt : Bool) : Bool :=
  match p.entries.lookup key with
  | some (.bool v) => v
  | _ => dflt

def ConfigSection.GetDouble (p : ConfigSection) (key : String) (dflt : ℚ) : ℚ :=
  match p.entries.lookup key with
  | some (.double v) => v
  | _ => dflt

/-! ## The camera object -/

/-- The statistics window `pFrame->pStatsWin`; only the number of `ResetImageSize` calls
is observed. -/
structure StatsWin where
  imageSizeResets : Nat
deriving DecidableEq, Repr

/-- Data members of `GuideCamera` that `camera.cpp` sets.  `Port` is not initialised by the
constructor, `PropertyDialogType` and `Name` are not used by the modelled functions. -/
structure GuideCamera where
  Connected : Bool
  m_hasGuideOutput : Bool
  HasPortNum : Bool
  HasDelayParam : Bool
  HasGainControl : Bool
  HasShutter : Bool
  ShutterClosed : Bool
  HasSubframes : Bool
  HasCooler : Bool
  FullSize : Int × Int
  UseSubframes : Bool
  ReadDelay : Int
  GuideCameraGain : Int
  m_timeoutMs : Int
  m_saturationADU : Int
  m_saturationByADU : Bool
  m_pixelSize : ℚ
  MaxBinning : Int
  Binning : Int
  Port : Int
  CurrentDarkFrame : Option ImgPtr
  CurrentDefectMap : Option Nat
  Darks : ExposureImgMap
deriving DecidableEq, Repr

def UNDEFINED_FRAME_SIZE : Int × Int := (0, 0)

/-- The call `GuideCamera::GetProfilePixelSize`. -/
def GetProfilePixelSize (Profile : ConfigSection) : ℚ :=
  Profile.GetDouble "/camera/pixelsize" DefaultPixelSize

/-- The constructor `GuideCamera::GuideCamera`.  `port` is the indeterminate initial
content of the member `Port`, which the constructor does not set. -/
def GuideCamera.new (Profile : ConfigSection) (port : Int) : GuideCamera :=
  { Connected := false
    m_hasGuideOutput := false
    HasPortNum := false
    HasDelayParam := false
    HasGainControl := false
    HasShutter := false
    ShutterClosed := false
    HasSubframes := false
    HasCooler := false
    FullSize := UNDEFINED_FRAME_SIZE
    UseSubframes := Profile.GetBoolean "/camera/UseSubframes" DefaultUseSubframes
    ReadDelay := Profile.GetInt "/camera/ReadDelay" DefaultReadDelay
    GuideCameraGain := Profile.GetInt "/camera/gain" DefaultGuideCameraGain
    m_timeoutMs := Profile.GetInt "/camera/TimeoutMs" DefaultGuideCameraTimeoutMs
    m_saturationADU := (min (Profile.GetInt "/camera/SaturationADU" 0) 65535) % 65536
    m_saturationByADU := Profile.GetBoolean "/camera/SaturationByADU" false
    m_pixelSize := GetProfilePixelSize Profile
    MaxBinning := 1
    Binning := Profile.GetInt "/camera/binning" 1
    Port := port
    CurrentDarkFrame := none
    CurrentDefectMap := none
    Darks := { entries := [] } }

def GuideCamera.GetCameraGain (cam : GuideCamera) : Int :=
  cam.GuideCameraGain

/-- The setter `GuideCamera::SetCameraGain`: the result is `(bError, camera, profile)`.
The `throw` of the `try` block is caught by the `catch` that follows it. -/
def GuideCamera.SetCameraGain (cam : GuideCamera) (Profile : ConfigSection) (cameraGain : Int) :
    Bool × GuideCamera × ConfigSection :=
  let tried : Except String GuideCamera :=
    if cameraGain ≤ 0 then .error "cameraGain <= 0"
    else .ok { cam with GuideCameraGain := cameraGain }
  let (bError, cam1) : Bool × GuideCamera :=
    match tried with
    | .ok c => (false, c)
    | .error _ => (true, { cam with GuideCameraGain := DefaultGuideCameraGain })
  (bError, cam1, Profile.SetInt "/camera/gain" cam1.GuideCameraGain)

/-- The setter `GuideCamera::SetBinning`: the result is `(error, camera, profile)`. -/
def GuideCamera.SetBinning (cam : GuideCamera) (Profile : ConfigSection) (binning : Int) :
    Bool × GuideCamera × ConfigSection :=
  let binning1 := if binning < 1 then 1 else binning
  let binning2 := if binning1 > cam.MaxBinning then cam.MaxBinning else binning1
  (false, { cam with Binning := binning2 }, Profile.SetInt "/camera/binning" binning2)

def MIN_TIMEOUT_MS : Int := 5000

/-- The setter `GuideCamera::SetTimeoutMs`. -/
def GuideCamera.SetTimeoutMs (cam : GuideCamera) (Profile : ConfigSection) (ms : Int) :
    GuideCamera × ConfigSection :=
  let cam1 := { cam with m_timeoutMs := max ms MIN_TIMEOUT_MS }
  (cam1, Profile.SetInt "/camera/TimeoutMs" cam1.m_timeoutMs)

def GuideCamera.GetTimeoutMs (cam : GuideCamera) : Int :=
  cam.m_timeoutMs

def GuideCamera.GetCameraPixelSize (cam : GuideCamera) : ℚ :=
  cam.m_pixelSize

/-- The setter `GuideCamera::SetCameraPixelSize`: the result is
`(bError, camera, profile, pFrame->pStatsWin)`. -/
def GuideCamera.SetCameraPixelSize (cam : GuideCamera) (Profile : ConfigSection)
    (pStatsWin : Option StatsWin) (pixel_size : ℚ) :
    Bool × GuideCamera × ConfigSection × Option StatsWin :=
  let tried : Except String (GuideCamera × Option StatsWin) :=
    if pixel_size ≤ 0 then .error "pixel_size <= 0"
    else
      .ok ({ cam with m_pixelSize := pixel_size },
        match pStatsWin with
        | some w => some { w with imageSizeResets := w.imageSizeResets + 1 }
        | none => none)
  let (bError, cam1, win1) : Bool × GuideCamera × Option StatsWin :=
    match tried with
    | .ok (c, w) => (false, c, w)
    | .error _ => (true, { cam with m_pixelSize := DefaultPixelSize }, pStatsWin)
  (bError, cam1, Profile.SetDouble "/camera/pixelsize" cam1.m_pixelSize, win1)

/-! ## Dark frames -/

/-- The method `GuideCamera::AddDark`.  Reading `dark->ImgExpDur` needs `dark` live, and
`delete prior` needs `prior` live. -/
def GuideCamera.AddDark (cam : GuideCamera) (heap : ImageHeap) (dark : ImgPtr) :
    Option (GuideCamera × ImageHeap) :=
  match heap.read dark with
  | none => none
  | some img =>
    let expdur := img.ImgExpDur
    match cam.Darks.find expdur with
    | some prior =>
      let cur := if some prior = cam.CurrentDarkFrame then some dark else cam.CurrentDarkFrame
      match heap.delete prior with
      | none => none
      | some heap1 =>
        some ({ cam with CurrentDarkFrame := cur, Darks := cam.Darks.assign expdur dark }, heap1)
    | none =>
      some ({ cam with Darks := cam.Darks.assign expdur dark }, heap)

/-- The loop of `GuideCamera::SelectDark` over the remaining entries, `cur` being the
value `CurrentDarkFrame` holds so far. -/
def selectLoop : List (Int × ImgPtr) → Int → Option ImgPtr → Option ImgPtr
  | [], _, cur => cur
  | (k, v) :: rest, exposureDuration, _ =>
    if k ≥ exposureDuration then some v else selectLoop rest exposureDuration (some v)

/-- The method `GuideCamera::SelectDark`. -/
def GuideCamera.SelectDark (cam : GuideCamera) (exposureDuration : Int) : GuideCamera :=
  { cam with CurrentDarkFrame := selectLoop cam.Darks.entries exposureDuration none }

/-! ## The camera list and the camera factory -/

/-- The preprocessor symbols that select the compiled-in drivers. -/
structure Defines where
  ASCOM_CAMERA : Bool
  ATIK16 : Bool
  ATIK_GEN3 : Bool
  QGUIDE : Bool
  STARFISH : Bool
  INOVA_PLC : Bool
  SSAG : Bool
  SSPIAG : Bool
  OS_PL130 : Bool
  ORION_DSCI : Bool
  OPENSSAG : Bool
  KWIQGUIDER : Bool
  MEADE_DSI : Bool
  CAM_QHY5 : Bool
  QHY_CAMERA : Bool
  ALTAIR : Bool
  ZWO_ASI : Bool
  SAC42 : Bool
  SBIG : Bool
  SBIGROTATOR_CAMERA : Bool
  SXV : Bool
  FIREWIRE : Bool
  OPENCV_CAMERA : Bool
  WDM_CAMERA : Bool
  VFW_CAMERA : Bool
  LE_LXUSB_CAMERA : Bool
  LE_PARALLEL_CAMERA : Bool
  LE_SERIAL_CAMERA : Bool
  INDI_CAMERA : Bool
  V4L_CAMERA : Bool
  SIMULATOR : Bool
  NEB_SBIG : Bool
deriving DecidableEq, Repr

/-- Every driver compiled in. -/
def allDefined : Defines :=
  { ASCOM_CAMERA := true, ATIK16 := true, ATIK_GEN3 := true, QGUIDE := true, STARFISH := true,
    INOVA_PLC := true, SSAG := true, SSPIAG := true, OS_PL130 := true, ORION_DSCI := true,
    OPENSSAG := true, KWIQGUIDER := true, MEADE_DSI := true, CAM_QHY5 := true,
    QHY_CAMERA := true, ALTAIR := true, ZWO_ASI := true, SAC42 := true, SBIG := true,
    SBIGROTATOR_CAMERA := true, SXV := true, FIREWIRE := true, OPENCV_CAMERA := true,
    WDM_CAMERA := true, VFW_CAMERA := true, LE_LXUSB_CAMERA := true,
    LE_PARALLEL_CAMERA := true, LE_SERIAL_CAMERA := true, INDI_CAMERA := true,
    V4L_CAMERA := true, SIMULATOR := true, NEB_SBIG := true }

/-- What `List` and `Factory` obtain from outside `camera.cpp`: the translation of
`"None"` (`_("None")`), the ASCOM cameras enumerated by `CameraASCOM::EnumAscomCameras`,
and for V4L the results of `ProbeDevices`, `NumberOfDevices` and of the device selection
dialog `wxGetSinglechoiceIndex` (`-1` when it is cancelled). -/
structure Environment where
  trNone : String
  ascomCameras : List String
  v4lProbeDevices : Bool
  v4lNumberOfDevices : Int
  v4lDialogChoice : Int
deriving DecidableEq, Repr

def findFrom (sub : List Char) : List Char → Nat → Int
  | [], i => if sub = [] then (i : Int) else wxNOT_FOUND
  | c :: cs, i => if sub.isPrefixOf (c :: cs) then (i : Int) else findFrom sub cs (i + 1)

/-- The search `s.Find(sub)` of `wxString`: index of the first occurrence of `sub` in `s`,
or `wxNOT_FOUND`. -/
def wxFind (s sub : String) : Int :=
  findFrom sub.data s.data 0

/-- Truth value of a C++ `int` used as a condition. -/
def truthy (n : Int) : Bool := n != 0

def cmpNoCaseChars : List Char → List Char → Int
  | [], [] => 0
  | [], _ :: _ => -1
  | _ :: _, [] => 1
  | a :: as, b :: bs =>
    if a.toLower < b.toLower then -1
    else if b.toLower < a.toLower then 1
    else cmpNoCaseChars as bs

/-- The comparison `first.CmpNoCase(second)` of `CompareNoCase`. -/
def CompareNoCase (first second : String) : Int :=
  cmpNoCaseChars first.data second.data

/-- The call `CameraList.Sort(&CompareNoCase)`. -/
def sortNoCase (l : List String) : List String :=
  l.insertionSort (fun a b => CompareNoCase a b ≤ 0)

/-- A block under `#if defined (X)`: its names are present exactly when `X` is defined. -/
def ifdef (defined : Bool) (names : List String) : List String :=
  if defined then names else []

/-- The function `GuideCamera::List`. -/
def CameraList (D : Defines) (env : Environment) : List String :=
  sortNoCase <| List.flatten [
    [env.trNone],
    ifdef D.ASCOM_CAMERA env.ascomCameras,
    ifdef D.ATIK16 ["Atik 16 series, mono", "Atik 16 series, color"],
    ifdef D.ATIK_GEN3 ["Atik Gen3, mono", "Atik Gen3, color"],
    ifdef D.QGUIDE ["CCD Labs Q-Guider"],
    ifdef D.STARFISH ["Fishcamp Starfish"],
    ifdef D.INOVA_PLC ["i-Nova PLC-M"],
    ifdef D.SSAG ["StarShoot Autoguider"],
    ifdef D.SSPIAG ["StarShoot Planetary Imager & Autoguider"],
    ifdef D.OS_PL130 ["Opticstar PL-130M", "Opticstar PL-130C"],
    ifdef D.ORION_DSCI ["Orion StarShoot DSCI"],
    ifdef D.OPENSSAG ["Orion StarShoot Autoguider"],
    ifdef D.KWIQGUIDER ["KWIQGuider"],
    ifdef D.QGUIDE ["MagZero MZ-5"],
    ifdef D.MEADE_DSI ["Meade DSI I, II, or III"],
    ifdef D.CAM_QHY5 ["QHY 5"],
    ifdef D.QHY_CAMERA ["QHY Camera"],
    ifdef D.ALTAIR ["Altair Camera"],
    ifdef D.ZWO_ASI ["ZWO ASI Camera"],
    ifdef D.SAC42 ["SAC4-2"],
    ifdef D.SBIG ["SBIG"],
    ifdef D.SBIGROTATOR_CAMERA ["SBIG Rotator"],
    ifdef D.SXV ["Starlight Xpress SXV"],
    ifdef D.FIREWIRE ["The Imaging Source (DCAM Firewire)"],
    ifdef D.OPENCV_CAMERA ["OpenCV webcam 1", "OpenCV webcam 2"],
    ifdef D.WDM_CAMERA ["Windows WDM-style webcam camera"],
    ifdef D.VFW_CAMERA ["Windows VFW-style webcam camera (older & SAC8)"],
    ifdef D.LE_LXUSB_CAMERA ["Long exposure LXUSB webcam"],
    ifdef D.LE_PARALLEL_CAMERA ["Long exposure Parallel webcam"],
    ifdef D.LE_SERIAL_CAMERA ["Long exposure Serial webcam"],
    ifdef D.INDI_CAMERA ["INDI Camera"],
    ifdef D.V4L_CAMERA (ifdef env.v4lProbeDevices ["V4L(2) Camera"]),
    ifdef D.SIMULATOR ["Simulator"],
    ifdef D.NEB_SBIG ["Guide chip on SBIG cam in Nebulosity"] ]

/-- The object `Factory` creates: one constructor per driver class, with the members the
factory sets.  For `Camera_OSPL130Class` the two fields are the `Color` and `Name` the
factory writes to the global `Camera_OSPL130`; for `Camera_VIDEODEVICEClass` the field is
the index of the device whose data the factory writes to the global `Camera_VIDEODEVICE`. -/
inductive CameraInstance where
  | CameraASCOM (choice : String)
  | CameraSimulator
  | CameraSAC42
  | CameraAtik16 (HSModel : Bool) (Color : Bool)
  | CameraQGuider (Name : String)
  | Camera_QHY
  | Camera_Altair
  | Camera_ZWO
  | CameraQHY5
  | CameraOpenSSAG
  | CameraKWIQGuider
  | CameraSSAG
  | CameraSSPIAG
  | CameraStarShootDSCI
  | CameraOpenCV (dev : Int)
  | CameraWDM
  | CameraVFW
  | CameraLESerialWebcam
  | CameraLEParallelWebcam
  | CameraLELxUsbWebcam
  | CameraDSI
  | CameraStarfish
  | CameraSXV
  | Camera_OSPL130Class (Color : Bool) (Name : String)
  | CameraNebSBIG
  | CameraSBIGRotator
  | CameraSBIG
  | CameraFirewire
  | CameraINovaPLC
  | CameraINDI
  | Camera_VIDEODEVICEClass (deviceIndex : Int)
deriving DecidableEq, Repr

/-- Name of the C++ class of the object. -/
def CameraInstance.className : CameraInstance → String
  | .CameraASCOM _ => "CameraASCOM"
  | .CameraSimulator => "CameraSimulator"
  | .CameraSAC42 => "CameraSAC42"
  | .CameraAtik16 _ _ => "CameraAtik16"
  | .CameraQGuider _ => "CameraQGuider"
  | .Camera_QHY => "Camera_QHY"
  | .Camera_Altair => "Camera_Altair"
  | .Camera_ZWO => "Camera_ZWO"
  | .CameraQHY5 => "CameraQHY5"
  | .CameraOpenSSAG => "CameraOpenSSAG"
  | .CameraKWIQGuider => "CameraKWIQGuider"
  | .CameraSSAG => "CameraSSAG"
  | .CameraSSPIAG => "CameraSSPIAG"
  | .CameraStarShootDSCI => "CameraStarShootDSCI"
  | .CameraOpenCV _ => "CameraOpenCV"
  | .CameraWDM => "CameraWDM"
  | .CameraVFW => "CameraVFW"
  | .CameraLESerialWebcam => "CameraLESerialWebcam"
  | .CameraLEParallelWebcam => "CameraLEParallelWebcam"
  | .CameraLELxUsbWebcam => "CameraLELxUsbWebcam"
  | .CameraDSI => "CameraDSI"
  | .CameraStarfish => "CameraStarfish"
  | .CameraSXV => "CameraSXV"
  | .Camera_OSPL130Class _ _ => "Camera_OSPL130Class"
  | .CameraNebSBIG => "CameraNebSBIG"
  | .CameraSBIGRotator => "CameraSBIGRotator"
  | .CameraSBIG => "CameraSBIG"
  | .CameraFirewire => "CameraFirewire"
  | .CameraINovaPLC => "CameraINovaPLC"
  | .CameraINDI => "CameraINDI"
  | .Camera_VIDEODEVICEClass _ => "Camera_VIDEODEVICEClass"

/-- The V4L branch of `Factory`: the device is index 0 when there is exactly one, else
the one picked in the dialog, and a cancelled dialog throws. -/
def factoryV4L (env : Environment) : Except String (Option CameraInstance) :=
  if 1 = env.v4lNumberOfDevices then .ok (some (.Camera_VIDEODEVICEClass 0))
  else if -1 ≠ env.v4lDialogChoice then
    .ok (some (.Camera_VIDEODEVICEClass env.v4lDialogChoice))
  else .error "Camerafactory invalid V4L choice"

/-- The `try` block of `GuideCamera::Factory`: the value of `pReturn` at its end, or the
thrown message.  `pReturn` is still null wherever the block throws. -/
def factoryTry (D : Defines) (env : Environment) (choice : String) :
    Except String (Option CameraInstance) :=
  if choice.isEmpty then .error "CameraFactory called with choice.IsEmpty()"
  else if D.ASCOM_CAMERA && (wxFind choice "ASCOM" != wxNOT_FOUND) then
    .ok (some (.CameraASCOM choice))
  else if truthy (wxFind choice env.trNone + 1) then .ok none
  else if truthy (wxFind choice "Simulator" + 1) then .ok (some .CameraSimulator)
  else if D.SAC42 && truthy (wxFind choice "SAC4-2" + 1) then .ok (some .CameraSAC42)
  else if D.ATIK16 && truthy (wxFind choice "Atik 16 series" + 1) then
    .ok (some (.CameraAtik16 false (if truthy (wxFind choice "color") then true else false)))
  else if D.ATIK_GEN3 && truthy (wxFind choice "Atik Gen3" + 1) then
    .ok (some (.CameraAtik16 true (if truthy (wxFind choice "color") then true else false)))
  else if D.QGUIDE && truthy (wxFind choice "CCD Labs Q-Guider" + 1) then
    .ok (some (.CameraQGuider "Q-Guider"))
  else if D.QGUIDE && truthy (wxFind choice "MagZero MZ-5" + 1) then
    .ok (some (.CameraQGuider "MagZero MZ-5"))
  else if D.QHY_CAMERA && (wxFind choice "QHY Camera" != wxNOT_FOUND) then
    .ok (some .Camera_QHY)
  else if D.ALTAIR && truthy (wxFind choice "Altair Camera" + 1) then .ok (some .Camera_Altair)
  else if D.ZWO_ASI && truthy (wxFind choice "ZWO ASI Camera" + 1) then .ok (some .Camera_ZWO)
  else if D.CAM_QHY5 && truthy (wxFind choice "QHY 5" + 1) then .ok (some .CameraQHY5)
  else if D.OPENSSAG && truthy (wxFind choice "Orion StarShoot Autoguider" + 1) then
    .ok (some .CameraOpenSSAG)
  else if D.KWIQGUIDER && truthy (wxFind choice "KWIQGuider" + 1) then
    .ok (some .CameraKWIQGuider)
  else if D.SSAG && truthy (wxFind choice "StarShoot Autoguider" + 1) then
    .ok (some .CameraSSAG)
  else if D.SSPIAG && truthy (wxFind choice "StarShoot Planetary Imager & Autoguider" + 1) then
    .ok (some .CameraSSPIAG)
  else if D.ORION_DSCI && truthy (wxFind choice "Orion StarShoot DSCI" + 1) then
    .ok (some .CameraStarShootDSCI)
  else if D.OPENCV_CAMERA && truthy (wxFind choice "OpenCV webcam" + 1) then
    .ok (some (.CameraOpenCV (if truthy (wxFind choice "2" + 1) then 1 else 0)))
  else if D.WDM_CAMERA && truthy (wxFind choice "Windows WDM" + 1) then .ok (some .CameraWDM)
  else if D.VFW_CAMERA && truthy (wxFind choice "Windows VFW" + 1) then .ok (some .CameraVFW)
  else if D.LE_SERIAL_CAMERA && truthy (wxFind choice "Long exposure Serial webcam" + 1) then
    .ok (some .CameraLESerialWebcam)
  else if D.LE_PARALLEL_CAMERA && truthy (wxFind choice "Long exposure Parallel webcam" + 1) then
    .ok (some .CameraLEParallelWebcam)
  else if D.LE_LXUSB_CAMERA && truthy (wxFind choice "Long exposure LXUSB webcam" + 1) then
    .ok (some .CameraLELxUsbWebcam)
  else if D.MEADE_DSI && truthy (wxFind choice "Meade DSI I, II, or III" + 1) then
    .ok (some .CameraDSI)
  else if D.STARFISH && truthy (wxFind choice "Fishcamp Starfish" + 1) then
    .ok (some .CameraStarfish)
  else if D.SXV && truthy (wxFind choice "Starlight Xpress SXV" + 1) then .ok (some .CameraSXV)
  else if D.OS_PL130 && truthy (wxFind choice "Opticstar PL-130M" + 1) then
    .ok (some (.Camera_OSPL130Class false "Opticstar PL-130M"))
  else if D.OS_PL130 && truthy (wxFind choice "Opticstar PL-130C" + 1) then
    .ok (some (.Camera_OSPL130Class true "Opticstar PL-130C"))
  else if D.NEB_SBIG && truthy (wxFind choice "Nebulosity" + 1) then .ok (some .CameraNebSBIG)
  else if D.SBIGROTATOR_CAMERA && truthy (wxFind choice "SBIG Rotator" + 1) then
    .ok (some .CameraSBIGRotator)
  else if D.SBIG && truthy (wxFind choice "SBIG" + 1) then .ok (some .CameraSBIG)
  else if D.FIREWIRE && truthy (wxFind choice "The Imaging Source (DCAM Firewire)" + 1) then
    .ok (some .CameraFirewire)
  else if D.INOVA_PLC && truthy (wxFind choice "i-Nova PLC-M" + 1) then
    .ok (some .CameraINovaPLC)
  else if D.INDI_CAMERA && truthy (wxFind choice "INDI Camera" + 1) then .ok (some .CameraINDI)
  else if D.V4L_CAMERA && truthy (wxFind choice "V4L(2) Camera" + 1) then factoryV4L env
  else .error "CameraFactory: Unknown camera choice"

/-- The function `GuideCamera::Factory`: `none` is the null pointer.  The `catch` block
turns every thrown message into a null result. -/
def Factory (D : Defines) (env : Environment) (choice : String) : Option CameraInstance :=
  match factoryTry D env choice with
  | .ok pReturn => pReturn
  | .error _ => none

/-- The name patterns `Factory` searches the choice for, given the compiled-in drivers. -/
def recognisedPatterns (D : Defines) (env : Environment) : List String :=
  List.flatten [
    ifdef D.ASCOM_CAMERA ["ASCOM"],
    [env.trNone, "Simulator"],
    ifdef D.SAC42 ["SAC4-2"],
    ifdef D.ATIK16 ["Atik 16 series"],
    ifdef D.ATIK_GEN3 ["Atik Gen3"],
    ifdef D.QGUIDE ["CCD Labs Q-Guider", "MagZero MZ-5"],
    ifdef D.QHY_CAMERA ["QHY Camera"],
    ifdef D.ALTAIR ["Altair Camera"],
    ifdef D.ZWO_ASI ["ZWO ASI Camera"],
    ifdef D.CAM_QHY5 ["QHY 5"],
    ifdef D.OPENSSAG ["Orion StarShoot Autoguider"],
    ifdef D.KWIQGUIDER ["KWIQGuider"],
    ifdef D.SSAG ["StarShoot Autoguider"],
    ifdef D.SSPIAG ["StarShoot Planetary Imager & Autoguider"],
    ifdef D.ORION_DSCI ["Orion StarShoot DSCI"],
    ifdef D.OPENCV_CAMERA ["OpenCV webcam"],
    ifdef D.WDM_CAMERA ["Windows WDM"],
    ifdef D.VFW_CAMERA ["Windows VFW"],
    ifdef D.LE_SERIAL_CAMERA ["Long exposure Serial webcam"],
    ifdef D.LE_PARALLEL_CAMERA ["Long exposure Parallel webcam"],
    ifdef D.LE_LXUSB_CAMERA ["Long exposure LXUSB webcam"],
    ifdef D.MEADE_DSI ["Meade DSI I, II, or III"],
    ifdef D.STARFISH ["Fishcamp Starfish"],
    ifdef D.SXV ["Starlight Xpress SXV"],
    ifdef D.OS_PL130 ["Opticstar PL-130M", "Opticstar PL-130C"],
    ifdef D.NEB_SBIG ["Nebulosity"],
    ifdef D.SBIGROTATOR_CAMERA ["SBIG Rotator"],
    ifdef D.SBIG ["SBIG"],
    ifdef D.FIREWIRE ["The Imaging Source (DCAM Firewire)"],
    ifdef D.INOVA_PLC ["i-Nova PLC-M"],
    ifdef D.INDI_CAMERA ["INDI Camera"],
    ifdef D.V4L_CAMERA ["V4L(2) Camera"] ]

/-- The driver class each statically listed display name belongs to, as the conditional
blocks of `List` and the driver headers they stand for pair them; `none` for `"None"`.
This table follows the specification, not `Factory`. -/
def driverOfName : String → Option String
  | "Atik 16 series, mono" => some "CameraAtik16"
  | "Atik 16 series, color" => some "CameraAtik16"
  | "Atik Gen3, mono" => some "CameraAtik16"
  | "Atik Gen3, color" => some "CameraAtik16"
  | "CCD Labs Q-Guider" => some "CameraQGuider"
  | "Fishcamp Starfish" => some "CameraStarfish"
  | "i-Nova PLC-M" => some "CameraINovaPLC"
  | "StarShoot Autoguider" => some "CameraSSAG"
  | "StarShoot Planetary Imager & Autoguider" => some "CameraSSPIAG"
  | "Opticstar PL-130M" => some "Camera_OSPL130Class"
  | "Opticstar PL-130C" => some "Camera_OSPL130Class"
  | "Orion StarShoot DSCI" => some "CameraStarShootDSCI"
  | "Orion StarShoot Autoguider" => some "CameraOpenSSAG"
  | "KWIQGuider" => some "CameraKWIQGuider"
  | "MagZero MZ-5" => some "CameraQGuider"
  | "Meade DSI I, II, or III" => some "CameraDSI"
  | "QHY 5" => some "CameraQHY5"
  | "QHY Camera" => some "Camera_QHY"
  | "Altair Camera" => some "Camera_Altair"
  | "ZWO ASI Camera" => some "Camera_ZWO"
  | "SAC4-2" => some "CameraSAC42"
  | "SBIG" => some "CameraSBIG"
  | "SBIG Rotator" => some "CameraSBIGRotator"
  | "Starlight Xpress SXV" => some "CameraSXV"
  | "The Imaging Source (DCAM Firewire)" => some "CameraFirewire"
  | "OpenCV webcam 1" => some "CameraOpenCV"
  | "OpenCV webcam 2" => some "CameraOpenCV"
  | "Windows WDM-style webcam camera" => some "CameraWDM"
  | "Windows VFW-style webcam camera (older & SAC8)" => some "CameraVFW"
  | "Long exposure LXUSB webcam" => some "CameraLELxUsbWebcam"
  | "Long exposure Parallel webcam" => some "CameraLEParallelWebcam"
  | "Long exposure Serial webcam" => some "CameraLESerialWebcam"
  | "INDI Camera" => some "CameraINDI"
  | "Simulator" => some "CameraSimulator"
  | "Guide chip on SBIG cam in Nebulosity" => some "CameraNebSBIG"
  | _ => none

/-! ## Dark library queries, clearing and dark subtraction -/

/-- The loop of `GuideCamera::GetDarklibProperties`, on `(minExp, maxExp, ct)`. -/
def darklibLoop : List (Int × ImgPtr) → ℚ × ℚ × Int → ℚ × ℚ × Int
  | [], acc => acc
  | (k, _) :: rest, (minExp, maxExp, ct) =>
    darklibLoop rest
      (if (k : ℚ) < minExp then (k : ℚ) else minExp,
       if (k : ℚ) > maxExp then (k : ℚ) else maxExp,
       ct + 1)

/-- The method `GuideCamera::GetDarklibProperties`: the result is
`(*pNumDarks, *pMinExp, *pMaxExp)`. -/
def GuideCamera.GetDarklibProperties (cam : GuideCamera) : Int × ℚ × ℚ :=
  let r := darklibLoop cam.Darks.entries (9999, -9999, 0)
  (r.2.2, r.1, r.2.1)

/-- The loop of `GuideCamera::ClearDarks`: deletes the first dark and erases its entry
until the map is empty; the result is the map and the heap at the end of the loop. -/
def clearLoop : List (Int × ImgPtr) → ImageHeap → Option (List (Int × ImgPtr) × ImageHeap)
  | [], heap => some ([], heap)
  | (_, p) :: rest, heap =>
    match heap.delete p with
    | none => none
    | some heap1 => clearLoop rest heap1

/-- The method `GuideCamera::ClearDarks`. -/
def GuideCamera.ClearDarks (cam : GuideCamera) (heap : ImageHeap) :
    Option (GuideCamera × ImageHeap) :=
  match clearLoop cam.Darks.entries heap with
  | none => none
  | some (remaining, heap1) =>
    some ({ cam with Darks := { entries := remaining }, CurrentDarkFrame := none }, heap1)

/-- The method `GuideCamera::SubtractDark`, returning the image after the call.
`RemoveDefects` and `Subtract` are the image operations of other source files, taken as
parameters; `defectMaps` reads a defect map through its address. -/
def GuideCamera.SubtractDark {DefectMap : Type} (RemoveDefects : usImage → DefectMap → usImage)
    (Subtract : usImage → usImage → usImage) (cam : GuideCamera) (heap : ImageHeap)
    (defectMaps : Nat → Option DefectMap) (img : usImage) : Option usImage :=
  match cam.CurrentDefectMap with
  | some pMap =>
    match defectMaps pMap with
    | some defectMap => some (RemoveDefects img defectMap)
    | none => none
  | none =>
    match cam.CurrentDarkFrame with
    | some pDark =>
      match heap.read pDark with
      | some dark => some (Subtract img dark)
      | none => none
    | none => some img

/-- Allocation of a new `usImage` at the address `p`. -/
def ImageHeap.alloc (h : ImageHeap) (p : ImgPtr) (img : usImage) : ImageHeap :=
  { live := (p, img) :: h.live }

/-! ## Disconnect with alert -/

inductive CaptureFailType where
  | CAPT_FAIL_MEMORY
  | CAPT_FAIL_TIMEOUT
deriving DecidableEq, Repr

inductive ReconnectType where
  | NO_RECONNECT
  | RECONNECT
deriving DecidableEq, Repr

/-- The calls `DisconnectWithAlert` makes on the camera, the frame and the worker thread,
in the order they are made. -/
inductive CameraEvent where
  | Disconnect
  | UpdateStateLabels
  | Alert (msg : String)
  | SetSkipExposeComplete
  | TryReconnect
deriving DecidableEq, Repr

/-- The function `InitiateReconnect`; `hasWorkerThread` tells whether
`WorkerThread::This()` is non-null. -/
def InitiateReconnect (hasWorkerThread : Bool) : List CameraEvent :=
  (if hasWorkerThread then [CameraEvent.SetSkipExposeComplete] else [])
    ++ [CameraEvent.TryReconnect]

/-- The overload `GuideCamera::DisconnectWithAlert(const wxString&, ReconnectType)`. -/
def DisconnectWithAlertMsg (hasWorkerThread : Bool) (msg : String) (reconnect : ReconnectType) :
    List CameraEvent :=
  [CameraEvent.Disconnect, CameraEvent.UpdateStateLabels]
    ++ (if reconnect = ReconnectType.RECONNECT then
          [CameraEvent.Alert
            (msg ++ "\n" ++ "PHD will make several attempts to re-connect the camera.")]
            ++ InitiateReconnect hasWorkerThread
        else
          [CameraEvent.Alert
            (msg ++ "\n" ++
              "The camera has been disconnected. Please resolve the problem and re-connect the camera.")])

/-- The overload `GuideCamera::DisconnectWithAlert(CaptureFailType)`.  `timeoutMsg` is the
text `wxString::Format` makes of the requested exposure duration and `m_timeoutMs`. -/
def DisconnectWithAlert (hasWorkerThread : Bool) (timeoutMsg : String) (type : CaptureFailType) :
    List CameraEvent :=
  match type with
  | .CAPT_FAIL_MEMORY =>
    DisconnectWithAlertMsg hasWorkerThread "Memory allocation error during capture"
      ReconnectType.NO_RECONNECT
  | .CAPT_FAIL_TIMEOUT =>
    DisconnectWithAlertMsg hasWorkerThread timeoutMsg ReconnectType.RECONNECT

def CameraEvent.isAlert : CameraEvent → Bool
  | .Alert _ => true
  | _ => false

/-! ## The port choice of the configuration dialog -/

/-- The array `port_choices` of `CameraConfigDialogCtrlSet`. -/
def port_choices : List String :=
  ["Port 378", "Port 3BC", "Port 278", "COM1", "COM2", "COM3", "COM4", "COM5", "COM6", "COM7",
   "COM8", "COM9", "COM10", "COM11", "COM12", "COM13", "COM14", "COM15", "COM16"]

/-- The port each entry of `port_choices` names: the parallel port addresses, then the
number of the COM port.  This table follows the labels, not the dialog code. -/
def portOfChoice (i : Nat) : Int :=
  if i = 0 then 0x378 else if i = 1 then 0x3BC else if i = 2 then 0x278 else (i : Int) - 2

/-- The port `switch` of `CameraConfigDialogCtrlSet::LoadValues`: the selection given to
`m_pPortNum->SetSelection`; `selection` is the one shown before, kept when the camera has
no port number. -/
def LoadValues_Port (cam : GuideCamera) (selection : Int) : Int :=
  if cam.HasPortNum then
    if cam.Port = 0x3BC then 1
    else if cam.Port = 0x278 then 2
    else if cam.Port = 1 then 3
    else if cam.Port = 2 then 4
    else if cam.Port = 3 then 5
    else if cam.Port = 4 then 6
    else if cam.Port = 5 then 7
    else if cam.Port = 6 then 8
    else if cam.Port = 7 then 9
    else if cam.Port = 8 then 10
    else if cam.Port = 9 then 11
    else if cam.Port = 10 then 12
    else if cam.Port = 11 then 13
    else if cam.Port = 12 then 14
    else if cam.Port = 13 then 15
    else if cam.Port = 14 then 16
    else if cam.Port = 15 then 17
    else if cam.Port = 16 then 18
    else 0
  else selection

/-- The port `switch` of `CameraConfigDialogCtrlSet::UnloadValues`, `selection` being
`m_pPortNum->GetSelection()`. -/
def UnloadValues_Port (cam : GuideCamera) (selection : Int) : GuideCamera :=
  if cam.HasPortNum then
    if selection = 0 then { cam with Port := 0x378 }
    else if selection = 1 then { cam with Port := 0x3BC }
    else if selection = 2 then { cam with Port := 0x278 }
    else if selection = 3 then { cam with Port := 1 }
    else if selection = 4 then { cam with Port := 2 }
    else if selection = 5 then { cam with Port := 3 }
    else if selection = 6 then { cam with Port := 4 }
    else cam
  else cam

/-! ## Sequences of dark library operations -/

/-- One call on the dark library.  `addDark p img` allocates a new dark frame `img` at the
address `p` and passes it to `AddDark`. -/
inductive DarkOp where
  | addDark (p : ImgPtr) (img : usImage)
  | selectDark (exposureDuration : Int)
  | clearDarks
deriving DecidableEq, Repr

/-- Runs one operation: `none` when the address of a new frame is already live (it would
not be a fresh frame) or when the call has undefined behaviour. -/
def stepDark (s : GuideCamera × ImageHeap) : DarkOp → Option (GuideCamera × ImageHeap)
  | .addDark p img =>
    match s.2.read p with
    | some _ => none
    | none => s.1.AddDark (s.2.alloc p img) p
  | .selectDark e => some (s.1.SelectDark e, s.2)
  | .clearDarks => s.1.ClearDarks s.2

/-- Runs a sequence of operations from left to right. -/
def runDark : List DarkOp → GuideCamera × ImageHeap → Option (GuideCamera × ImageHeap)
  | [], s => some s
  | op :: ops, s =>
    match stepDark s op with
    | none => none
    | some s1 => runDark ops s1

/-! ## Concrete states used to instantiate the theorems -/

/-- A camera constructed from an empty profile. -/
def freshCamera : GuideCamera := GuideCamera.new { entries := [] } 0

/-- A camera whose dark library holds a 1 s dark at address 7 and a 2 s dark at address 8. -/
def darkCamera : GuideCamera :=
  { freshCamera with Darks := { entries := [(1000, 7), (2000, 8)] }, CurrentDarkFrame := some 7 }

/-- A heap in which the two darks of `darkCamera` and a new 2 s dark at address 9 are live. -/
def darkHeap : ImageHeap :=
  { live := [(7, { ImgExpDur := 1000, ImageData := [1] }),
             (8, { ImgExpDur := 2000, ImageData := [2] }),
             (9, { ImgExpDur := 2000, ImageData := [3] })] }

/-- A defect removal used to instantiate `SubtractDark`: it zeroes the listed pixels. -/
def removeListed (img : usImage) (defects : List Nat) : usImage :=
  { img with ImageData := img.ImageData.enum.map (fun e => if e.1 ∈ defects then 0 else e.2) }

/-- A dark subtraction used to instantiate `SubtractDark`: pixelwise truncated difference. -/
def subtractPixels (img dark : usImage) : usImage :=
  { img with ImageData := List.zipWith (fun a b => a - b) img.ImageData dark.ImageData }

/-- A store of defect maps with one map, at address 3, listing pixel 0. -/
def defectStore (p : Nat) : Option (List Nat) :=
  if p = 3 then some [0] else none

/-- A profile that holds entries of other sections only. -/
def otherProfile : ConfigSection :=
  { entries := [("/scope/CalibrationDuration", .int 750), ("/guider/ScaleImage", .bool true)] }

/-- A camera whose dark library holds a 10 s dark and a 15 s dark. -/
def longDarkCamera : GuideCamera :=
  { freshCamera with Darks := { entries := [(10000, 7), (15000, 8)] } }

/-- A camera with a port number, set to the parallel port 0x378. -/
def portCamera : GuideCamera :=
  { freshCamera with HasPortNum := true, Port := 0x378 }

/-- The invariant of the dark library: the keys ascend, every stored dark is live, no dark is
stored under two exposures, and the current dark frame is null or a stored dark. -/
def DarkInv (s : GuideCamera × ImageHeap) : Prop :=
  s.1.Darks.WF ∧
  (∀ k p, s.1.Darks.find k = some p → (s.2.read p).isSome = true) ∧
  (∀ k1 k2 p, s.1.Darks.find k1 = some p → s.1.Darks.find k2 = some p → k1 = k2) ∧
  (s.1.CurrentDarkFrame = none ∨
    ∃ k p, s.1.CurrentDarkFrame = some p ∧ s.1.Darks.find k = some p)

/-- A sequence of calls: add a 1 s dark at address 1, select a dark for 0.5 s, then
replace the 1 s dark by a new one at address 2. -/
def replayOps : List DarkOp :=
  [DarkOp.addDark 1 { ImgExpDur := 1000, ImageData := [1] },
   DarkOp.selectDark 500,
   DarkOp.addDark 2 { ImgExpDur := 1000, ImageData := [2] }]

/-- The camera after `replayOps`, started from `freshCamera`. -/
def replayCamera : GuideCamera :=
  { freshCamera with Darks := { entries := [(1000, 2)] }, CurrentDarkFrame := some 2 }

/-- The heap after `replayOps`, started from the empty heap. -/
def replayHeap : ImageHeap :=
  { live := [(2, { ImgExpDur := 1000, ImageData := [2] })] }

/-- The environment in which `List` adds the static names only: no translation, no ASCOM
camera, no V4L device. -/
def staticEnv : Environment :=
  { trNone := "None", ascomCameras := [], v4lProbeDevices := false, v4lNumberOfDevices := 0,
    v4lDialogChoice := -1 }

/-! ## Lemmas on the ordered map -/

theorem findEntry_assign_same (l : List (Int × ImgPtr)) (key : Int) (v : ImgPtr) :
    findEntry (assignEntry l key v) key = some v := by
  induction l with
  | nil => simp [assignEntry, findEntry]
  | cons a rest ih =>
    obtain ⟨k, w⟩ := a
    unfold assignEntry
    by_cases h1 : key < k
    · simp [h1, findEntry]
    · by_cases h2 : key = k
      · simp [h2, findEntry]
      · simp [h1, h2, findEntry, ih]

theorem findEntry_assign_other (l : List (Int × ImgPtr)) (key : Int) (v : ImgPtr) (k' : Int)
    (hne : k' ≠ key) : findEntry (assignEntry l key v) k' = findEntry l k' := by
  induction l with
  | nil => simp [assignEntry, findEntry, hne]
  | cons a rest ih =>
    obtain ⟨k, w⟩ := a
    unfold assignEntry
    by_cases h1 : key < k
    · simp [h1, findEntry, hne]
    · by_cases h2 : key = k
      · subst h2
        simp [findEntry, hne]
      · simp [h1, h2, findEntry, ih]

theorem findEntry_none_of_lt (l : List (Int × ImgPtr)) (key : Int)
    (h : ∀ kv ∈ l, key < kv.1) : findEntry l key = none := by
  induction l with
  | nil => rfl
  | cons a rest ih =>
    obtain ⟨k, w⟩ := a
    have hk : key < k := h (k, w) (List.mem_cons_self _ _)
    have hne : key ≠ k := ne_of_lt hk
    simp only [findEntry, hne, if_false]
    exact ih (fun kv hkv => h kv (List.mem_cons_of_mem _ hkv))

theorem length_assignEntry (l : List (Int × ImgPtr)) (key : Int) (v : ImgPtr)
    (hs : l.Pairwise (fun a b => a.1 < b.1)) :
    (assignEntry l key v).length =
      if (findEntry l key).isSome then l.length else l.length + 1 := by
  induction l with
  | nil => simp [assignEntry, findEntry]
  | cons a rest ih =>
    obtain ⟨k, w⟩ := a
    rw [List.pairwise_cons] at hs
    unfold assignEntry
    by_cases h1 : key < k
    · have hnone : findEntry ((k, w) :: rest) key = none := by
        apply findEntry_none_of_lt
        intro kv hkv
        rcases List.mem_cons.mp hkv with h | h
        · subst h; exact h1
        · exact lt_trans h1 (hs.1 kv h)
      simp [h1, hnone]
    · by_cases h2 : key = k
      · simp [h2, findEntry]
      · simp only [h1, h2, if_false, List.length_cons, findEntry, ih hs.2]
        split <;> rfl

theorem mem_assignEntry (l : List (Int × ImgPtr)) (key : Int) (v : ImgPtr) (kv : Int × ImgPtr)
    (h : kv ∈ assignEntry l key v) : kv = (key, v) ∨ kv ∈ l := by
  induction l with
  | nil =>
    simp only [assignEntry, List.mem_singleton] at h
    exact Or.inl h
  | cons a rest ih =>
    obtain ⟨k, w⟩ := a
    unfold assignEntry at h
    by_cases h1 : key < k
    · simp only [h1, if_true] at h
      rcases List.mem_cons.mp h with h | h
      · exact Or.inl h
      · exact Or.inr h
    · by_cases h2 : key = k
      · subst h2
        simp only [lt_irrefl, if_false, if_true, List.mem_cons] at h
        rcases h with h | h
        · exact Or.inl h
        · exact Or.inr (List.mem_cons_of_mem _ h)
      · simp only [h1, h2, if_false, List.mem_cons] at h
        rcases h with h | h
        · exact Or.inr (by rw [h]; exact List.mem_cons_self _ _)
        · rcases ih h with h' | h'
          · exact Or.inl h'
          · exact Or.inr (List.mem_cons_of_mem _ h')

theorem pairwise_assignEntry (l : List (Int × ImgPtr)) (key : Int) (v : ImgPtr)
    (hs : l.Pairwise (fun a b => a.1 < b.1)) :
    (assignEntry l key v).Pairwise (fun a b => a.1 < b.1) := by
  induction l with
  | nil => simp [assignEntry]
  | cons a rest ih =>
    obtain ⟨k, w⟩ := a
    have hs' := List.pairwise_cons.mp hs
    unfold assignEntry
    by_cases h1 : key < k
    · simp only [h1, if_true]
      refine List.pairwise_cons.mpr ⟨?_, hs⟩
      intro kv hkv
      rcases List.mem_cons.mp hkv with h | h
      · subst h; exact h1
      · exact lt_trans h1 (hs'.1 kv h)
    · by_cases h2 : key = k
      · subst h2
        simp only [lt_irrefl, if_false, if_true]
        exact List.pairwise_cons.mpr ⟨hs'.1, hs'.2⟩
      · simp only [h1, h2, if_false]
        refine List.pairwise_cons.mpr ⟨?_, ih hs'.2⟩
        intro kv hkv
        rcases mem_assignEntry rest key v kv hkv with h | h
        · subst h
          show k < key
          omega
        · exact hs'.1 kv h

theorem findEntry_of_mem (l : List (Int × ImgPtr)) (hs : l.Pairwise (fun a b => a.1 < b.1))
    (kv : Int × ImgPtr) (h : kv ∈ l) : findEntry l kv.1 = some kv.2 := by
  induction l with
  | nil => cases h
  | cons a rest ih =>
    obtain ⟨k, w⟩ := a
    have hs' := List.pairwise_cons.mp hs
    rcases List.mem_cons.mp h with h | h
    · subst h; simp [findEntry]
    · have hlt : k < kv.1 := hs'.1 kv h
      have hne : kv.1 ≠ k := ne_of_gt hlt
      simp only [findEntry, hne, if_false]
      exact ih hs'.2 h

theorem mem_of_findEntry (l : List (Int × ImgPtr)) (key : Int) (v : ImgPtr)
    (h : findEntry l key = some v) : (key, v) ∈ l := by
  induction l with
  | nil => simp [findEntry] at h
  | cons a rest ih =>
    obtain ⟨k, w⟩ := a
    unfold findEntry at h
    by_cases h1 : key = k
    · simp only [h1, if_true, Option.some.injEq] at h
      rw [h1, h]; exact List.mem_cons_self _ _
    · simp only [h1, if_false] at h
      exact List.mem_cons_of_mem _ (ih h)

/-! ## Lemmas on `SelectDark` -/

theorem selectLoop_smallest_geq (l : List (Int × ImgPtr)) (e : Int) (cur : Option ImgPtr)
    (hs : l.Pairwise (fun a b => a.1 < b.1)) (hex : ∃ kv ∈ l, e ≤ kv.1) :
    ∃ k v, findEntry l k = some v ∧ e ≤ k ∧ (∀ kv ∈ l, e ≤ kv.1 → k ≤ kv.1) ∧
      selectLoop l e cur = some v := by
  induction l generalizing cur with
  | nil => obtain ⟨kv, hkv, _⟩ := hex; cases hkv
  | cons a rest ih =>
    obtain ⟨k, w⟩ := a
    have hs' := List.pairwise_cons.mp hs
    by_cases hk : e ≤ k
    · refine ⟨k, w, by simp [findEntry], hk, ?_, by simp [selectLoop, hk]⟩
      intro kv hkv _
      rcases List.mem_cons.mp hkv with h | h
      · subst h; exact le_refl _
      · exact le_of_lt (hs'.1 kv h)
    · have hex' : ∃ kv ∈ rest, e ≤ kv.1 := by
        obtain ⟨kv, hkv, hge⟩ := hex
        rcases List.mem_cons.mp hkv with h | h
        · subst h; exact absurd hge hk
        · exact ⟨kv, h, hge⟩
      obtain ⟨k', v', hf, hge, hmin, hsel⟩ := ih (some w) hs'.2 hex'
      have hne : k' ≠ k := by omega
      refine ⟨k', v', by simp [findEntry, hne, hf], hge, ?_, by simp [selectLoop, hk, hsel]⟩
      intro kv hkv hkge
      rcases List.mem_cons.mp hkv with h | h
      · subst h; exact absurd hkge hk
      · exact hmin kv h hkge

theorem selectLoop_greatest (l : List (Int × ImgPtr)) (e : Int) (cur : Option ImgPtr)
    (hs : l.Pairwise (fun a b => a.1 < b.1)) (hne : l ≠ [])
    (hall : ∀ kv ∈ l, ¬ (kv.1 > e)) :
    ∃ k v, findEntry l k = some v ∧ (∀ kv ∈ l, kv.1 ≤ k) ∧ selectLoop l e cur = some v := by
  induction l generalizing cur with
  | nil => exact absurd rfl hne
  | cons a rest ih =>
    obtain ⟨k, w⟩ := a
    have hs' := List.pairwise_cons.mp hs
    cases hrest : rest with
    | nil =>
      refine ⟨k, w, by simp [findEntry], ?_, ?_⟩
      · intro kv hkv
        simp only [List.mem_singleton] at hkv
        subst hkv; exact le_refl _
      · simp only [selectLoop]
        split <;> rfl
    | cons b rest' =>
      have hrne : rest ≠ [] := by rw [hrest]; exact List.cons_ne_nil _ _
      have hall' : ∀ kv ∈ rest, ¬ (kv.1 > e) :=
        fun kv hkv => hall kv (List.mem_cons_of_mem _ hkv)
      obtain ⟨k', v', hf, hmax, hsel⟩ := ih (some w) hs'.2 hrne hall'
      have hmem : (k', v') ∈ rest := mem_of_findEntry rest k' v' hf
      have hlt : k < k' := hs'.1 (k', v') hmem
      have hk'e : ¬ (k' > e) := hall' (k', v') hmem
      have hke : ¬ (k ≥ e) := by omega
      have hne' : k' ≠ k := by omega
      rw [← hrest]
      refine ⟨k', v', by simp [findEntry, hne', hf], ?_, by simp [selectLoop, hke, hsel]⟩
      intro kv hkv
      rcases List.mem_cons.mp hkv with h | h
      · subst h; exact le_of_lt hlt
      · exact hmax kv h

/-! ## Lemmas on the heap -/

theorem lookup_filter_same (l : List (ImgPtr × usImage)) (p : ImgPtr) :
    (l.filter (fun e => e.1 != p)).lookup p = none := by
  induction l with
  | nil => rfl
  | cons a rest ih =>
    obtain ⟨q, img⟩ := a
    rw [List.filter_cons]
    by_cases h : q = p
    · have hb : ((q, img).1 != p) = false := by simp [h]
      rw [hb]
      simpa using ih
    · have hb : ((q, img).1 != p) = true := by simpa using h
      have hpq : (p == q) = false := by simpa using fun h' => h h'.symm
      rw [hb]
      simp only [if_true]
      rw [List.lookup_cons, hpq]
      exact ih

theorem lookup_filter_other (l : List (ImgPtr × usImage)) (p q : ImgPtr) (hq : q ≠ p) :
    (l.filter (fun e => e.1 != p)).lookup q = l.lookup q := by
  induction l with
  | nil => rfl
  | cons a rest ih =>
    obtain ⟨r, img⟩ := a
    rw [List.filter_cons]
    by_cases h : r = p
    · have hb : ((r, img).1 != p) = false := by simp [h]
      have hqr : (q == r) = false := by simpa [h] using hq
      rw [hb, List.lookup_cons, hqr]
      simpa using ih
    · have hb : ((r, img).1 != p) = true := by simpa using h
      rw [hb]
      simp only [if_true]
      rw [List.lookup_cons, List.lookup_cons, ih]

theorem read_delete_same (h h' : ImageHeap) (p : ImgPtr) (hd : h.delete p = some h') :
    h'.read p = none := by
  unfold ImageHeap.delete at hd
  cases hr : h.read p with
  | none => simp [hr] at hd
  | some img =>
    simp only [hr, Option.some.injEq] at hd
    subst hd
    exact lookup_filter_same h.live p

theorem read_delete_other (h h' : ImageHeap) (p q : ImgPtr) (hd : h.delete p = some h')
    (hq : q ≠ p) : h'.read q = h.read q := by
  unfold ImageHeap.delete at hd
  cases hr : h.read p with
  | none => simp [hr] at hd
  | some img =>
    simp only [hr, Option.some.injEq] at hd
    subst hd
    exact lookup_filter_other h.live p q hq

theorem delete_of_live (h : ImageHeap) (p : ImgPtr) (hl : (h.read p).isSome) :
    ∃ h', h.delete p = some h' := by
  unfold ImageHeap.delete
  cases hr : h.read p with
  | none => simp [hr] at hl
  | some img => exact ⟨_, rfl⟩

theorem read_alloc_same (h : ImageHeap) (p : ImgPtr) (img : usImage) :
    (h.alloc p img).read p = some img := by
  simp [ImageHeap.alloc, ImageHeap.read, List.lookup]

theorem read_alloc_other (h : ImageHeap) (p q : ImgPtr) (img : usImage) (hq : q ≠ p) :
    (h.alloc p img).read q = h.read q := by
  have hqp : (q == p) = false := by simpa using hq
  simp [ImageHeap.alloc, ImageHeap.read, List.lookup, hqp]

/-! ## Dark frame selection -/

/-- C1: for a dark library and a requested exposure `e` for which some stored dark has an
exposure of at least `e`, `SelectDark e` makes the current dark frame the stored dark whose
exposure is the smallest of the stored exposures that are at least `e`. -/
theorem SelectDark_smallest_sufficient (cam : GuideCamera) (e : Int) (hwf : cam.Darks.WF)
    (hex : ∃ k ∈ cam.Darks.keys, e ≤ k) :
    ∃ k d, cam.Darks.find k = some d ∧ e ≤ k ∧
      (∀ k' ∈ cam.Darks.keys, e ≤ k' → k ≤ k') ∧
      (cam.SelectDark e).CurrentDarkFrame = some d := by
  have hex' : ∃ kv ∈ cam.Darks.entries, e ≤ kv.1 := by
    obtain ⟨k, hk, hge⟩ := hex
    obtain ⟨kv, hkv, rfl⟩ := List.mem_map.mp hk
    exact ⟨kv, hkv, hge⟩
  obtain ⟨k, d, hf, hge, hmin, hsel⟩ :=
    selectLoop_smallest_geq cam.Darks.entries e none hwf hex'
  refine ⟨k, d, hf, hge, ?_, hsel⟩
  intro k' hk' hge'
  obtain ⟨kv, hkv, rfl⟩ := List.mem_map.mp hk'
  exact hmin kv hkv hge'

theorem SelectDark_smallest_sufficient_witness :
    ∃ k d, darkCamera.Darks.find k = some d ∧ (1500 : Int) ≤ k ∧
      (∀ k' ∈ darkCamera.Darks.keys, (1500 : Int) ≤ k' → k ≤ k') ∧
      (darkCamera.SelectDark 1500).CurrentDarkFrame = some d :=
  SelectDark_smallest_sufficient darkCamera 1500 (by decide) ⟨2000, by decide, by decide⟩

/-- C3: for a non-empty dark library and a requested exposure `e` that no stored exposure
exceeds, `SelectDark e` makes the current dark frame the stored dark with the greatest
exposure. -/
theorem SelectDark_greatest_when_none_longer (cam : GuideCamera) (e : Int) (hwf : cam.Darks.WF)
    (hne : cam.Darks.size ≠ 0) (hall : ∀ k ∈ cam.Darks.keys, ¬ (k > e)) :
    ∃ k d, cam.Darks.find k = some d ∧ (∀ k' ∈ cam.Darks.keys, k' ≤ k) ∧
      (cam.SelectDark e).CurrentDarkFrame = some d := by
  have hne' : cam.Darks.entries ≠ [] := by
    intro h; apply hne; simp [ExposureImgMap.size, h]
  have hall' : ∀ kv ∈ cam.Darks.entries, ¬ (kv.1 > e) :=
    fun kv hkv => hall kv.1 (List.mem_map.mpr ⟨kv, hkv, rfl⟩)
  obtain ⟨k, d, hf, hmax, hsel⟩ :=
    selectLoop_greatest cam.Darks.entries e none hwf hne' hall'
  refine ⟨k, d, hf, ?_, hsel⟩
  intro k' hk'
  obtain ⟨kv, hkv, rfl⟩ := List.mem_map.mp hk'
  exact hmax kv hkv

theorem SelectDark_greatest_when_none_longer_witness :
    ∃ k d, darkCamera.Darks.find k = some d ∧ (∀ k' ∈ darkCamera.Darks.keys, k' ≤ k) ∧
      (darkCamera.SelectDark 5000).CurrentDarkFrame = some d :=
  SelectDark_greatest_when_none_longer darkCamera 5000 (by decide) (by decide) (by decide)

/-! ## The camera factory -/

theorem Factory_env_irrelevant (D : Defines) (env env' : Environment) (choice : String)
    (htr : env.trNone = env'.trNone) (hv : wxFind choice "V4L(2) Camera" = wxNOT_FOUND) :
    Factory D env choice = Factory D env' choice := by
  have hv' : truthy (wxFind choice "V4L(2) Camera" + 1) = false := by
    rw [hv]; decide
  simp only [Factory, factoryTry, htr, hv', Bool.and_false]
  rfl

theorem Factory_static_closed : ∀ name ∈ CameraList allDefined staticEnv,
    wxFind name "V4L(2) Camera" = wxNOT_FOUND ∧
    (Factory allDefined staticEnv name).map CameraInstance.className = driverOfName name ∧
    (name ≠ "None" → (driverOfName name).isSome = true) := by
  decide

/-- C2: with every driver compiled in, `Factory` called with a display name that `List`
adds statically returns a camera of the driver class that belongs to the name, whatever the
ASCOM and V4L environment is; it returns no camera for "None", the SBIG rotator driver for
"SBIG Rotator", the Nebulosity driver for "Guide chip on SBIG cam in Nebulosity", the
OpenSSAG driver for "Orion StarShoot Autoguider" and the OpenCV driver on device 1 for
"OpenCV webcam 2". -/
theorem Factory_of_static_name (ascom : List String) (probe : Bool) (n c : Int) :
    (∀ name ∈ CameraList allDefined staticEnv,
      (Factory allDefined ⟨"None", ascom, probe, n, c⟩ name).map CameraInstance.className
          = driverOfName name ∧
        (name ≠ "None" → (driverOfName name).isSome = true)) ∧
    Factory allDefined ⟨"None", ascom, probe, n, c⟩ "None" = none ∧
    Factory allDefined ⟨"None", ascom, probe, n, c⟩ "SBIG Rotator"
      = some CameraInstance.CameraSBIGRotator ∧
    Factory allDefined ⟨"None", ascom, probe, n, c⟩ "SBIG" = some CameraInstance.CameraSBIG ∧
    Factory allDefined ⟨"None", ascom, probe, n, c⟩ "Guide chip on SBIG cam in Nebulosity"
      = some CameraInstance.CameraNebSBIG ∧
    Factory allDefined ⟨"None", ascom, probe, n, c⟩ "Orion StarShoot Autoguider"
      = some CameraInstance.CameraOpenSSAG ∧
    Factory allDefined ⟨"None", ascom, probe, n, c⟩ "OpenCV webcam 1"
      = some (CameraInstance.CameraOpenCV 0) ∧
    Factory allDefined ⟨"None", ascom, probe, n, c⟩ "OpenCV webcam 2"
      = some (CameraInstance.CameraOpenCV 1) := by
  refine ⟨?_, ?_, ?_, ?_, ?_, ?_, ?_, ?_⟩
  · intro name hname
    obtain ⟨hv, hcls, hsome⟩ := Factory_static_closed name hname
    rw [Factory_env_irrelevant allDefined ⟨"None", ascom, probe, n, c⟩ staticEnv name rfl hv]
    exact ⟨hcls, hsome⟩
  all_goals
    rw [Factory_env_irrelevant allDefined ⟨"None", ascom, probe, n, c⟩ staticEnv _ rfl (by decide)]
    decide

theorem mem_ifdef (b : Bool) (l : List String) (p : String) :
    p ∈ ifdef b l ↔ b = true ∧ p ∈ l := by
  cases b <;> simp [ifdef]

theorem forall_guarded_eq {P : String → Prop} (b : Bool) (c : String) :
    (∀ x : String, b = true → x = c → P x) ↔ (b = true → P c) :=
  ⟨fun h hb => h c hb rfl, fun h _ hb hx => hx ▸ h hb⟩

theorem truthy_of_not_found (n : Int) (h : n = wxNOT_FOUND) : truthy (n + 1) = false := by
  subst h; decide

theorem guard_truthy_false (b : Bool) (n : Int) (h : b = true → n = wxNOT_FOUND) :
    (b && truthy (n + 1)) = false := by
  cases b
  · rfl
  · simp [truthy_of_not_found n (h rfl)]

theorem guard_ne_false (b : Bool) (n : Int) (h : b = true → n = wxNOT_FOUND) :
    (b && (n != wxNOT_FOUND)) = false := by
  cases b
  · rfl
  · simp [h rfl]

/-- C4: `Factory` is a total function into "a camera or null" (its `catch` block absorbs
every throw of its `try` block), and it returns null for the empty choice string and for
every choice string in which none of the recognised name patterns occurs. -/
theorem Factory_unknown_choice (D : Defines) (env : Environment) (choice : String)
    (h : choice = "" ∨ ∀ p ∈ recognisedPatterns D env, wxFind choice p = wxNOT_FOUND) :
    Factory D env choice = none := by
  rcases h with rfl | h
  · rfl
  · simp only [recognisedPatterns, List.mem_flatten, List.mem_cons, List.mem_singleton,
      List.not_mem_nil, or_false, exists_eq_or_imp, forall_exists_index, and_imp,
      mem_ifdef, exists_false, forall_eq_or_imp, forall_eq, or_imp, forall_and,
      forall_guarded_eq] at h
    obtain ⟨a1, ⟨a2, a3⟩, a4, a5, a6, ⟨a7, a8⟩, a9, a10, a11, a12, a13, a14, a15, a16, a17, a18, a19,
      a20, a21, a22, a23, a24, a25, a26, ⟨a27, a28⟩, a29, a30, a31, a32, a33, a34, a35⟩ := h
    simp only [Factory, factoryTry,
      guard_ne_false _ _ a1, truthy_of_not_found _ a2, truthy_of_not_found _ a3,
      guard_truthy_false _ _ a4, guard_truthy_false _ _ a5, guard_truthy_false _ _ a6,
      guard_truthy_false _ _ a7, guard_truthy_false _ _ a8, guard_ne_false _ _ a9,
      guard_truthy_false _ _ a10, guard_truthy_false _ _ a11, guard_truthy_false _ _ a12,
      guard_truthy_false _ _ a13, guard_truthy_false _ _ a14, guard_truthy_false _ _ a15,
      guard_truthy_false _ _ a16, guard_truthy_false _ _ a17, guard_truthy_false _ _ a18,
      guard_truthy_false _ _ a19, guard_truthy_false _ _ a20, guard_truthy_false _ _ a21,
      guard_truthy_false _ _ a22, guard_truthy_false _ _ a23, guard_truthy_false _ _ a24,
      guard_truthy_false _ _ a25, guard_truthy_false _ _ a26, guard_truthy_false _ _ a27,
      guard_truthy_false _ _ a28, guard_truthy_false _ _ a29, guard_truthy_false _ _ a30,
      guard_truthy_false _ _ a31, guard_truthy_false _ _ a32, guard_truthy_false _ _ a33,
      guard_truthy_false _ _ a34, guard_truthy_false _ _ a35]
    by_cases he : choice.isEmpty = true
    · rw [if_pos he]
    · rw [if_neg he]
      rfl

theorem Factory_unknown_choice_witness :
    Factory allDefined staticEnv "My own camera" = none :=
  Factory_unknown_choice allDefined staticEnv "My own camera" (Or.inr (by decide))

/-! ## Gain, binning, timeout and pixel size -/

theorem GetInt_SetInt_same (p : ConfigSection) (key : String) (v dflt : Int) :
    (p.SetInt key v).GetInt key dflt = v := by
  simp [ConfigSection.SetInt, ConfigSection.set, ConfigSection.GetInt, List.lookup]

theorem lookup_filter_key (l : List (String × ProfileValue)) (key key' : String)
    (hne : key ≠ key') :
    (l.filter (fun e => e.1 != key')).lookup key = l.lookup key := by
  induction l with
  | nil => rfl
  | cons a rest ih =>
    obtain ⟨k, w⟩ := a
    rw [List.filter_cons]
    by_cases h : k = key'
    · have hb : ((k, w).1 != key') = false := by simp [h]
      have hkk : (key == k) = false := by simpa [h] using hne
      rw [hb, List.lookup_cons, hkk]
      simpa using ih
    · have hb : ((k, w).1 != key') = true := by simpa using h
      rw [hb]
      simp only [if_true]
      rw [List.lookup_cons, List.lookup_cons, ih]

theorem GetInt_SetInt_other (p : ConfigSection) (key key' : String) (v dflt : Int)
    (hne : key ≠ key') : (p.SetInt key' v).GetInt key dflt = p.GetInt key dflt := by
  have hkk : (key == key') = false := by simpa using hne
  simp only [ConfigSection.SetInt, ConfigSection.set, ConfigSection.GetInt, List.lookup_cons,
    hkk, lookup_filter_key p.entries key key' hne]

theorem GetDouble_SetDouble_same (p : ConfigSection) (key : String) (v dflt : ℚ) :
    (p.SetDouble key v).GetDouble key dflt = v := by
  simp [ConfigSection.SetDouble, ConfigSection.set, ConfigSection.GetDouble, List.lookup]

/-- C5: for every integer `g`, `SetCameraGain g` reports an error exactly when `g <= 0`;
afterwards `GetCameraGain` returns `g` when `g > 0` and the default gain 95 when `g <= 0`,
whatever the gain was before. -/
theorem SetCameraGain_result (cam : GuideCamera) (Profile : ConfigSection) (g : Int) :
    ((cam.SetCameraGain Profile g).1 = true ↔ g ≤ 0) ∧
    (cam.SetCameraGain Profile g).2.1.GetCameraGain = (if g > 0 then g else 95) := by
  unfold GuideCamera.SetCameraGain GuideCamera.GetCameraGain
  by_cases h : g ≤ 0
  · have h' : ¬ g > 0 := by omega
    simp [h, h', DefaultGuideCameraGain]
  · have h' : g > 0 := by omega
    simp [h, h']

/-- C6: for a camera with `MaxBinning >= 1` and every integer `b`, `SetBinning b` reports no
error and leaves `Binning` equal to `b` clamped into `[1, MaxBinning]`, so that
`1 <= Binning <= MaxBinning` holds afterwards; `MaxBinning` is not changed. -/
theorem SetBinning_clamps (cam : GuideCamera) (Profile : ConfigSection) (b : Int)
    (hmax : 1 ≤ cam.MaxBinning) :
    (cam.SetBinning Profile b).1 = false ∧
    (cam.SetBinning Profile b).2.1.Binning = max 1 (min b cam.MaxBinning) ∧
    1 ≤ (cam.SetBinning Profile b).2.1.Binning ∧
    (cam.SetBinning Profile b).2.1.Binning ≤ (cam.SetBinning Profile b).2.1.MaxBinning ∧
    (cam.SetBinning Profile b).2.1.MaxBinning = cam.MaxBinning := by
  unfold GuideCamera.SetBinning
  simp only [true_and, and_true]
  by_cases h1 : b < 1
  · have h2 : ¬ (1 > cam.MaxBinning) := by omega
    simp only [h1, h2, if_true, if_false]
    omega
  · by_cases h2 : b > cam.MaxBinning
    · simp only [h1, h2, if_true, if_false]
      omega
    · simp only [h1, h2, if_false]
      omega

theorem SetBinning_clamps_witness :
    (darkCamera.SetBinning { entries := [] } 4).1 = false ∧
    (darkCamera.SetBinning { entries := [] } 4).2.1.Binning = max 1 (min 4 darkCamera.MaxBinning) ∧
    1 ≤ (darkCamera.SetBinning { entries := [] } 4).2.1.Binning ∧
    (darkCamera.SetBinning { entries := [] } 4).2.1.Binning
      ≤ (darkCamera.SetBinning { entries := [] } 4).2.1.MaxBinning ∧
    (darkCamera.SetBinning { entries := [] } 4).2.1.MaxBinning = darkCamera.MaxBinning :=
  SetBinning_clamps darkCamera { entries := [] } 4 (by decide)

/-- C7: after `SetCameraGain`, `SetBinning` or `SetTimeoutMs`, for every argument, the value
the profile holds under "/camera/gain", "/camera/binning" or "/camera/TimeoutMs" equals the
value the camera then holds, and a camera constructed from that profile starts with that
value; after the three setters in a row the constructed camera has all three values. -/
theorem setters_persist (cam : GuideCamera) (Profile : ConfigSection) (g b ms dflt port : Int) :
    ((cam.SetCameraGain Profile g).2.2.GetInt "/camera/gain" dflt
        = (cam.SetCameraGain Profile g).2.1.GuideCameraGain ∧
      (GuideCamera.new (cam.SetCameraGain Profile g).2.2 port).GuideCameraGain
        = (cam.SetCameraGain Profile g).2.1.GuideCameraGain) ∧
    ((cam.SetBinning Profile b).2.2.GetInt "/camera/binning" dflt
        = (cam.SetBinning Profile b).2.1.Binning ∧
      (GuideCamera.new (cam.SetBinning Profile b).2.2 port).Binning
        = (cam.SetBinning Profile b).2.1.Binning) ∧
    ((cam.SetTimeoutMs Profile ms).2.GetInt "/camera/TimeoutMs" dflt
        = (cam.SetTimeoutMs Profile ms).1.m_timeoutMs ∧
      (GuideCamera.new (cam.SetTimeoutMs Profile ms).2 port).m_timeoutMs
        = (cam.SetTimeoutMs Profile ms).1.m_timeoutMs) ∧
    (let s1 := cam.SetCameraGain Profile g
     let s2 := s1.2.1.SetBinning s1.2.2 b
     let s3 := s2.2.1.SetTimeoutMs s2.2.2 ms
     (GuideCamera.new s3.2 port).GuideCameraGain = s3.1.GuideCameraGain ∧
     (GuideCamera.new s3.2 port).Binning = s3.1.Binning ∧
     (GuideCamera.new s3.2 port).m_timeoutMs = s3.1.m_timeoutMs) := by
  have hgb : ("/camera/gain" : String) ≠ "/camera/binning" := by decide
  have hgt : ("/camera/gain" : String) ≠ "/camera/TimeoutMs" := by decide
  have hbt : ("/camera/binning" : String) ≠ "/camera/TimeoutMs" := by decide
  refine ⟨⟨?_, ?_⟩, ⟨?_, ?_⟩, ⟨?_, ?_⟩, ?_, ?_, ?_⟩
  · simp only [GuideCamera.SetCameraGain, GetInt_SetInt_same]
  · simp only [GuideCamera.SetCameraGain, GuideCamera.new, GetInt_SetInt_same]
  · simp only [GuideCamera.SetBinning, GetInt_SetInt_same]
  · simp only [GuideCamera.SetBinning, GuideCamera.new, GetInt_SetInt_same]
  · simp only [GuideCamera.SetTimeoutMs, GetInt_SetInt_same]
  · simp only [GuideCamera.SetTimeoutMs, GuideCamera.new, GetInt_SetInt_same]
  · simp only [GuideCamera.SetTimeoutMs, GuideCamera.SetBinning, GuideCamera.SetCameraGain,
      GuideCamera.new, GetInt_SetInt_other _ _ _ _ _ hgt, GetInt_SetInt_other _ _ _ _ _ hgb,
      GetInt_SetInt_same]
  · simp only [GuideCamera.SetTimeoutMs, GuideCamera.SetBinning, GuideCamera.SetCameraGain,
      GuideCamera.new, GetInt_SetInt_other _ _ _ _ _ hbt, GetInt_SetInt_same]
  · simp only [GuideCamera.SetTimeoutMs, GuideCamera.SetBinning, GuideCamera.SetCameraGain,
      GuideCamera.new, GetInt_SetInt_same]

/-- C8: for every integer `ms`, after `SetTimeoutMs ms` the camera timeout is
`max ms 5000`: 5000 for a request below 5000 and the request itself otherwise. -/
theorem SetTimeoutMs_floor (cam : GuideCamera) (Profile : ConfigSection) (ms : Int) :
    (cam.SetTimeoutMs Profile ms).1.GetTimeoutMs = max ms 5000 ∧
    (cam.SetTimeoutMs Profile ms).1.GetTimeoutMs = (if ms < 5000 then 5000 else ms) := by
  unfold GuideCamera.SetTimeoutMs GuideCamera.GetTimeoutMs MIN_TIMEOUT_MS
  constructor
  · rfl
  · show max ms 5000 = _
    split <;> omega

/-- C9: for every pixel size `p` (an exact rational), `SetCameraPixelSize p` reports an error
exactly when `p <= 0`; afterwards the camera pixel size is `p` when `p > 0` and the default
0.0 when `p <= 0`, and in both cases the value written to the profile under
"/camera/pixelsize" (and read back from it) is the pixel size the camera then holds. -/
theorem SetCameraPixelSize_result (cam : GuideCamera) (Profile : ConfigSection)
    (pStatsWin : Option StatsWin) (p dflt : ℚ) :
    ((cam.SetCameraPixelSize Profile pStatsWin p).1 = true ↔ p ≤ 0) ∧
    (cam.SetCameraPixelSize Profile pStatsWin p).2.1.GetCameraPixelSize
      = (if p > 0 then p else 0) ∧
    (cam.SetCameraPixelSize Profile pStatsWin p).2.2.1
      = Profile.SetDouble "/camera/pixelsize"
          (cam.SetCameraPixelSize Profile pStatsWin p).2.1.GetCameraPixelSize ∧
    (cam.SetCameraPixelSize Profile pStatsWin p).2.2.1.GetDouble "/camera/pixelsize" dflt
      = (cam.SetCameraPixelSize Profile pStatsWin p).2.1.GetCameraPixelSize := by
  unfold GuideCamera.SetCameraPixelSize GuideCamera.GetCameraPixelSize
  by_cases h : p ≤ 0
  · have h' : ¬ p > 0 := not_lt.mpr h
    simp [h, h', DefaultPixelSize, GetDouble_SetDouble_same]
  · have h' : p > 0 := not_le.mp h
    simp [h, h', GetDouble_SetDouble_same]

/-! ## Adding a dark frame -/

theorem AddDark_without_prior (cam : GuideCamera) (heap : ImageHeap) (d : ImgPtr)
    (img : usImage) (hlive : heap.read d = some img)
    (hfind : cam.Darks.find img.ImgExpDur = none) :
    cam.AddDark heap d
      = some ({ cam with Darks := cam.Darks.assign img.ImgExpDur d }, heap) := by
  unfold GuideCamera.AddDark
  simp only [hlive, hfind]

theorem AddDark_with_prior (cam : GuideCamera) (heap heap1 : ImageHeap) (d prior : ImgPtr)
    (img : usImage) (hlive : heap.read d = some img)
    (hfind : cam.Darks.find img.ImgExpDur = some prior)
    (hdel : heap.delete prior = some heap1) :
    cam.AddDark heap d
      = some ({ cam with
                CurrentDarkFrame :=
                  if some prior = cam.CurrentDarkFrame then some d else cam.CurrentDarkFrame,
                Darks := cam.Darks.assign img.ImgExpDur d }, heap1) := by
  unfold GuideCamera.AddDark
  simp only [hlive, hfind, hdel]

/-- C10: for a dark library and a live dark frame `d` with exposure duration `x` (the prior
dark for `x`, if any, being live), after `AddDark d` the library maps `x` to `d`, every other
exposure maps to the same dark as before, and the number of stored darks grows by one
exactly when `x` was not in the library and is unchanged otherwise. -/
theorem AddDark_updates_library (cam : GuideCamera) (heap : ImageHeap) (d : ImgPtr)
    (img : usImage) (hwf : cam.Darks.WF) (hlive : heap.read d = some img)
    (hprior : ∀ p, cam.Darks.find img.ImgExpDur = some p → (heap.read p).isSome = true) :
    ∃ cam' heap', cam.AddDark heap d = some (cam', heap') ∧
      cam'.Darks.find img.ImgExpDur = some d ∧
      (∀ k, k ≠ img.ImgExpDur → cam'.Darks.find k = cam.Darks.find k) ∧
      cam'.Darks.size =
        (if (cam.Darks.find img.ImgExpDur).isSome then cam.Darks.size
         else cam.Darks.size + 1) ∧
      cam'.Darks.WF := by
  have hsame : (cam.Darks.assign img.ImgExpDur d).find img.ImgExpDur = some d :=
    findEntry_assign_same _ _ _
  have hother : ∀ k, k ≠ img.ImgExpDur →
      (cam.Darks.assign img.ImgExpDur d).find k = cam.Darks.find k :=
    fun k hk => findEntry_assign_other _ _ _ k hk
  have hsize : (cam.Darks.assign img.ImgExpDur d).size =
      (if (cam.Darks.find img.ImgExpDur).isSome then cam.Darks.size
       else cam.Darks.size + 1) :=
    length_assignEntry _ _ _ hwf
  have hwf' : (cam.Darks.assign img.ImgExpDur d).WF := pairwise_assignEntry _ _ _ hwf
  cases hfind : cam.Darks.find img.ImgExpDur with
  | none =>
    rw [hfind] at hsize
    exact ⟨_, _, AddDark_without_prior cam heap d img hlive hfind, hsame, hother, hsize, hwf'⟩
  | some prior =>
    rw [hfind] at hsize
    obtain ⟨heap1, hdel⟩ := delete_of_live heap prior (hprior prior hfind)
    exact ⟨_, _, AddDark_with_prior cam heap heap1 d prior img hlive hfind hdel,
      hsame, hother, hsize, hwf'⟩

theorem AddDark_updates_library_witness :
    ∃ cam' heap', darkCamera.AddDark darkHeap 9 = some (cam', heap') ∧
      cam'.Darks.find 2000 = some 9 ∧
      (∀ k, k ≠ 2000 → cam'.Darks.find k = darkCamera.Darks.find k) ∧
      cam'.Darks.size =
        (if (darkCamera.Darks.find 2000).isSome then darkCamera.Darks.size
         else darkCamera.Darks.size + 1) ∧
      cam'.Darks.WF :=
  AddDark_updates_library darkCamera darkHeap 9 { ImgExpDur := 2000, ImageData := [3] }
    (by decide) (by decide) (by decide)

/-! ## Dark subtraction and clearing the dark library -/

/-- C11: `SubtractDark` applies one correction chosen by priority: with a defect map set it
removes defects with that map and subtracts no dark, whatever the current dark frame is;
with no defect map and a current dark frame it subtracts that dark frame; with neither it
leaves the image unchanged. -/
theorem SubtractDark_priority {DefectMap : Type} (RemoveDefects : usImage → DefectMap → usImage)
    (Subtract : usImage → usImage → usImage) (cam : GuideCamera) (heap : ImageHeap)
    (defectMaps : Nat → Option DefectMap) (img : usImage) :
    (∀ pMap defectMap, cam.CurrentDefectMap = some pMap → defectMaps pMap = some defectMap →
      cam.SubtractDark RemoveDefects Subtract heap defectMaps img
        = some (RemoveDefects img defectMap)) ∧
    (∀ pDark dark, cam.CurrentDefectMap = none → cam.CurrentDarkFrame = some pDark →
      heap.read pDark = some dark →
      cam.SubtractDark RemoveDefects Subtract heap defectMaps img = some (Subtract img dark)) ∧
    (cam.CurrentDefectMap = none → cam.CurrentDarkFrame = none →
      cam.SubtractDark RemoveDefects Subtract heap defectMaps img = some img) := by
  refine ⟨?_, ?_, ?_⟩
  · intro pMap defectMap h1 h2
    simp only [GuideCamera.SubtractDark, h1, h2]
  · intro pDark dark h1 h2 h3
    simp only [GuideCamera.SubtractDark, h1, h2, h3]
  · intro h1 h2
    simp only [GuideCamera.SubtractDark, h1, h2]

theorem SubtractDark_priority_witness :
    { darkCamera with CurrentDefectMap := some 3 }.SubtractDark removeListed subtractPixels
        darkHeap defectStore { ImgExpDur := 1000, ImageData := [5] }
      = some (removeListed { ImgExpDur := 1000, ImageData := [5] } [0]) ∧
    darkCamera.SubtractDark removeListed subtractPixels darkHeap defectStore
        { ImgExpDur := 1000, ImageData := [5] }
      = some (subtractPixels { ImgExpDur := 1000, ImageData := [5] }
          { ImgExpDur := 1000, ImageData := [1] }) ∧
    freshCamera.SubtractDark removeListed subtractPixels darkHeap defectStore
        { ImgExpDur := 1000, ImageData := [5] }
      = some { ImgExpDur := 1000, ImageData := [5] } :=
  ⟨(SubtractDark_priority removeListed subtractPixels { darkCamera with CurrentDefectMap := some 3 }
      darkHeap defectStore { ImgExpDur := 1000, ImageData := [5] }).1 3 [0] rfl rfl,
   (SubtractDark_priority removeListed subtractPixels darkCamera darkHeap defectStore
      { ImgExpDur := 1000, ImageData := [5] }).2.1 7 { ImgExpDur := 1000, ImageData := [1] }
      rfl rfl rfl,
   (SubtractDark_priority removeListed subtractPixels freshCamera darkHeap defectStore
      { ImgExpDur := 1000, ImageData := [5] }).2.2 rfl rfl⟩

theorem clearLoop_frees (l : List (Int × ImgPtr)) (heap : ImageHeap)
    (hnodup : (l.map Prod.snd).Nodup)
    (hlive : ∀ kv ∈ l, (heap.read kv.2).isSome = true) :
    ∃ heap', clearLoop l heap = some ([], heap') ∧
      (∀ kv ∈ l, heap'.read kv.2 = none) ∧
      (∀ q, q ∉ l.map Prod.snd → heap'.read q = heap.read q) := by
  induction l generalizing heap with
  | nil => exact ⟨heap, rfl, ⟨fun kv hkv => absurd hkv (List.not_mem_nil kv), fun _ _ => rfl⟩⟩
  | cons a rest ih =>
    obtain ⟨k, p⟩ := a
    rw [List.map_cons, List.nodup_cons] at hnodup
    obtain ⟨heap1, hdel⟩ := delete_of_live heap p (hlive (k, p) (List.mem_cons_self _ _))
    have hlive1 : ∀ kv ∈ rest, (heap1.read kv.2).isSome = true := by
      intro kv hkv
      have hne : kv.2 ≠ p := by
        intro h
        exact hnodup.1 (List.mem_map.mpr ⟨kv, hkv, h⟩)
      rw [read_delete_other heap heap1 p kv.2 hdel hne]
      exact hlive kv (List.mem_cons_of_mem _ hkv)
    obtain ⟨heap', hloop, hfreed, hkept⟩ := ih heap1 hnodup.2 hlive1
    refine ⟨heap', ?_, ?_, ?_⟩
    · simp only [clearLoop, hdel, hloop]
    · intro kv hkv
      rcases List.mem_cons.mp hkv with h | h
      · subst h
        show heap'.read p = none
        rw [hkept p hnodup.1]
        exact read_delete_same heap heap1 p hdel
      · exact hfreed kv h
    · intro q hq
      rw [List.map_cons, List.mem_cons, not_or] at hq
      rw [hkept q hq.2]
      exact read_delete_other heap heap1 p q hdel hq.1

/-- C12: after `ClearDarks`, from every state whose stored darks are live and pairwise
distinct objects, the dark library is empty, `GetDarklibProperties` reports 0 darks, no
current dark frame is selected, the defect map is unchanged, and every dark that was stored
has been freed. -/
theorem ClearDarks_empties (cam : GuideCamera) (heap : ImageHeap)
    (hnodup : (cam.Darks.entries.map Prod.snd).Nodup)
    (hlive : ∀ kv ∈ cam.Darks.entries, (heap.read kv.2).isSome = true) :
    ∃ cam' heap', cam.ClearDarks heap = some (cam', heap') ∧
      cam'.Darks.entries = [] ∧ cam'.Darks.size = 0 ∧
      cam'.GetDarklibProperties.1 = 0 ∧
      cam'.CurrentDarkFrame = none ∧
      cam'.CurrentDefectMap = cam.CurrentDefectMap ∧
      (∀ kv ∈ cam.Darks.entries, heap'.read kv.2 = none) := by
  obtain ⟨heap', hloop, hfreed, _⟩ := clearLoop_frees cam.Darks.entries heap hnodup hlive
  refine ⟨{ cam with Darks := { entries := [] }, CurrentDarkFrame := none }, heap', ?_,
    rfl, rfl, rfl, rfl, rfl, hfreed⟩
  simp only [GuideCamera.ClearDarks, hloop]

theorem ClearDarks_empties_witness :
    ∃ cam' heap', darkCamera.ClearDarks darkHeap = some (cam', heap') ∧
      cam'.Darks.entries = [] ∧ cam'.Darks.size = 0 ∧
      cam'.GetDarklibProperties.1 = 0 ∧
      cam'.CurrentDarkFrame = none ∧
      cam'.CurrentDefectMap = darkCamera.CurrentDefectMap ∧
      (∀ kv ∈ darkCamera.Darks.entries, heap'.read kv.2 = none) :=
  ClearDarks_empties darkCamera darkHeap (by decide) (by decide)

/-! ## Disconnect with alert -/

/-- C13: `DisconnectWithAlert type` disconnects the camera once, before anything else,
raises exactly one alert, and starts a reconnect attempt exactly when the capture failure is
a timeout; for a memory allocation failure no reconnect is attempted. -/
theorem DisconnectWithAlert_effects (hasWorkerThread : Bool) (timeoutMsg : String)
    (type : CaptureFailType) :
    (DisconnectWithAlert hasWorkerThread timeoutMsg type).head? = some CameraEvent.Disconnect ∧
    (DisconnectWithAlert hasWorkerThread timeoutMsg type).count CameraEvent.Disconnect = 1 ∧
    ((DisconnectWithAlert hasWorkerThread timeoutMsg type).filter CameraEvent.isAlert).length
      = 1 ∧
    (DisconnectWithAlert hasWorkerThread timeoutMsg type).count CameraEvent.TryReconnect
      = (if type = CaptureFailType.CAPT_FAIL_TIMEOUT then 1 else 0) ∧
    CameraEvent.TryReconnect ∉
      DisconnectWithAlert hasWorkerThread timeoutMsg CaptureFailType.CAPT_FAIL_MEMORY := by
  cases type <;> cases hasWorkerThread <;>
    simp [DisconnectWithAlert, DisconnectWithAlertMsg, InitiateReconnect, CameraEvent.isAlert,
      List.count_cons]

/-! ## Construction -/

theorem lookup_eq_none_of_forall_ne (l : List (String × ProfileValue)) (key : String)
    (h : ∀ e ∈ l, e.1 ≠ key) : l.lookup key = none := by
  induction l with
  | nil => rfl
  | cons a rest ih =>
    obtain ⟨k, w⟩ := a
    have hk : (key == k) = false := by
      simpa using fun h' : key = k => h (k, w) (List.mem_cons_self _ _) h'.symm
    rw [List.lookup_cons, hk]
    exact ih (fun e he => h e (List.mem_cons_of_mem _ he))

/-- C14: a `GuideCamera` constructed from a profile with no entry under "/camera/" starts
with gain 95, disconnect timeout 15000 ms (15 seconds), binning 1 with `MaxBinning` 1, pixel
size 0.0, read delay 150, subframes off, saturation detection by star profile, not
connected, no current dark frame, no defect map and an empty dark library. -/
theorem constructor_defaults (Profile : ConfigSection) (port : Int)
    (hno : ∀ e ∈ Profile.entries, ("/camera/".data.isPrefixOf e.1.data) = false) :
    (GuideCamera.new Profile port).GetCameraGain = 95 ∧
    (GuideCamera.new Profile port).GetTimeoutMs = 15000 ∧
    (GuideCamera.new Profile port).GetTimeoutMs / 1000 = 15 ∧
    (GuideCamera.new Profile port).Binning = 1 ∧
    (GuideCamera.new Profile port).MaxBinning = 1 ∧
    (GuideCamera.new Profile port).GetCameraPixelSize = 0 ∧
    (GuideCamera.new Profile port).ReadDelay = 150 ∧
    (GuideCamera.new Profile port).UseSubframes = false ∧
    (GuideCamera.new Profile port).m_saturationByADU = false ∧
    (GuideCamera.new Profile port).Connected = false ∧
    (GuideCamera.new Profile port).CurrentDarkFrame = none ∧
    (GuideCamera.new Profile port).CurrentDefectMap = none ∧
    (GuideCamera.new Profile port).Darks.size = 0 := by
  have hkey : ∀ key : String, ("/camera/".data.isPrefixOf key.data) = true →
      Profile.entries.lookup key = none := by
    intro key hk
    apply lookup_eq_none_of_forall_ne
    intro e he heq
    have := hno e he
    rw [heq, hk] at this
    exact Bool.noConfusion this
  have h1 := hkey "/camera/UseSubframes" (by decide)
  have h2 := hkey "/camera/ReadDelay" (by decide)
  have h3 := hkey "/camera/gain" (by decide)
  have h4 := hkey "/camera/TimeoutMs" (by decide)
  have h5 := hkey "/camera/SaturationByADU" (by decide)
  have h6 := hkey "/camera/pixelsize" (by decide)
  have h7 := hkey "/camera/binning" (by decide)
  simp only [GuideCamera.new, GuideCamera.GetCameraGain, GuideCamera.GetTimeoutMs,
    GuideCamera.GetCameraPixelSize, GetProfilePixelSize, ConfigSection.GetInt,
    ConfigSection.GetBoolean, ConfigSection.GetDouble, h1, h2, h3, h4, h5, h6, h7,
    DefaultGuideCameraGain, DefaultGuideCameraTimeoutMs, DefaultPixelSize, DefaultReadDelay,
    DefaultUseSubframes, ExposureImgMap.size]
  decide

theorem constructor_defaults_witness :
    (GuideCamera.new otherProfile 0).GetCameraGain = 95 ∧
    (GuideCamera.new otherProfile 0).GetTimeoutMs = 15000 ∧
    (GuideCamera.new otherProfile 0).GetTimeoutMs / 1000 = 15 ∧
    (GuideCamera.new otherProfile 0).Binning = 1 ∧
    (GuideCamera.new otherProfile 0).MaxBinning = 1 ∧
    (GuideCamera.new otherProfile 0).GetCameraPixelSize = 0 ∧
    (GuideCamera.new otherProfile 0).ReadDelay = 150 ∧
    (GuideCamera.new otherProfile 0).UseSubframes = false ∧
    (GuideCamera.new otherProfile 0).m_saturationByADU = false ∧
    (GuideCamera.new otherProfile 0).Connected = false ∧
    (GuideCamera.new otherProfile 0).CurrentDarkFrame = none ∧
    (GuideCamera.new otherProfile 0).CurrentDefectMap = none ∧
    (GuideCamera.new otherProfile 0).Darks.size = 0 :=
  constructor_defaults otherProfile 0 (by decide)

/-! ## Evaluations at the inputs where the code departs from the claims -/

/-- C15 (evaluation): for a dark library holding a 10 s and a 15 s dark,
`GetDarklibProperties` reports 2 darks and the maximum exposure 15000, but the minimum
exposure 9999, the initial value of `minExp`, and not the smallest stored exposure 10000. -/
theorem GetDarklibProperties_long_darks :
    longDarkCamera.Darks.keys = [10000, 15000] ∧
    longDarkCamera.GetDarklibProperties = (2, 9999, 15000) := by
  refine ⟨rfl, ?_⟩
  simp [GuideCamera.GetDarklibProperties, longDarkCamera, darklibLoop]
  norm_num

/-- C16 (evaluation): for the mono Atik choices `Factory` sets `Color` to true, as it does
for the color choices, because `choice.Find("color")` is the non-zero `wxNOT_FOUND` when
"color" does not occur. -/
theorem Factory_Atik_mono_Color :
    wxFind "Atik 16 series, mono" "color" = wxNOT_FOUND ∧
    Factory allDefined staticEnv "Atik 16 series, mono"
      = some (CameraInstance.CameraAtik16 false true) ∧
    Factory allDefined staticEnv "Atik Gen3, mono"
      = some (CameraInstance.CameraAtik16 true true) ∧
    Factory allDefined staticEnv "Atik 16 series, color"
      = some (CameraInstance.CameraAtik16 false true) ∧
    Factory allDefined staticEnv "Atik Gen3, color"
      = some (CameraInstance.CameraAtik16 true true) := by
  decide

/-- C17 (evaluation): with the choice "COM5" (index 7) selected, `UnloadValues` leaves
`Port` at its prior value, here 0x378, although the choice names port 5, and a following
`LoadValues` selects index 0 ("Port 378"), not index 7. -/
theorem UnloadValues_Port_COM5 :
    port_choices.length = 19 ∧ port_choices.get? 7 = some "COM5" ∧ portOfChoice 7 = 5 ∧
    (UnloadValues_Port portCamera 7).Port = 0x378 ∧
    LoadValues_Port (UnloadValues_Port portCamera 7) 7 = 0 := by
  decide

/-! ## The current dark frame across dark library operations -/

/-- C19: `AddDark d`, for a live dark `d` with exposure `x` (the prior dark for `x`, if any,
being live), frees the prior dark for `x` and nothing else, and frees nothing when there is
no prior dark; `d` becomes the current dark frame when the library held a dark for `x` and
that dark was the current dark frame, and in every other case the current dark frame is
the same as before the call. -/
theorem AddDark_current_frame (cam : GuideCamera) (heap : ImageHeap) (d : ImgPtr)
    (img : usImage) (hlive : heap.read d = some img)
    (hprior : ∀ p, cam.Darks.find img.ImgExpDur = some p → (heap.read p).isSome = true) :
    ∃ cam' heap', cam.AddDark heap d = some (cam', heap') ∧
      (∀ prior, cam.Darks.find img.ImgExpDur = some prior →
        heap'.read prior = none ∧ ∀ q, q ≠ prior → heap'.read q = heap.read q) ∧
      (cam.Darks.find img.ImgExpDur = none → heap' = heap) ∧
      cam'.CurrentDarkFrame =
        (if (cam.Darks.find img.ImgExpDur).isSome = true ∧
            cam.Darks.find img.ImgExpDur = cam.CurrentDarkFrame
         then some d else cam.CurrentDarkFrame) := by
  cases hfind : cam.Darks.find img.ImgExpDur with
  | none =>
    refine ⟨_, _, AddDark_without_prior cam heap d img hlive hfind, ?_, fun _ => rfl, ?_⟩
    · intro prior hp
      exact Option.noConfusion hp
    · simp
  | some prior =>
    obtain ⟨heap1, hdel⟩ := delete_of_live heap prior (hprior prior hfind)
    refine ⟨_, _, AddDark_with_prior cam heap heap1 d prior img hlive hfind hdel, ?_, ?_, ?_⟩
    · intro prior' hp
      have hpp : prior' = prior := (Option.some.inj hp).symm
      subst hpp
      exact ⟨read_delete_same heap heap1 prior' hdel,
        fun q hq => read_delete_other heap heap1 prior' q hdel hq⟩
    · intro hp
      exact Option.noConfusion hp
    · simp

theorem AddDark_current_frame_witness :
    ∃ cam' heap', darkCamera.AddDark darkHeap 9 = some (cam', heap') ∧
      (∀ prior, darkCamera.Darks.find 2000 = some prior →
        heap'.read prior = none ∧ ∀ q, q ≠ prior → heap'.read q = darkHeap.read q) ∧
      (darkCamera.Darks.find 2000 = none → heap' = darkHeap) ∧
      cam'.CurrentDarkFrame =
        (if (darkCamera.Darks.find 2000).isSome = true ∧
            darkCamera.Darks.find 2000 = darkCamera.CurrentDarkFrame
         then some 9 else darkCamera.CurrentDarkFrame) :=
  AddDark_current_frame darkCamera darkHeap 9 { ImgExpDur := 2000, ImageData := [3] }
    (by decide) (by decide)

theorem selectLoop_result (l : List (Int × ImgPtr)) (e : Int) (cur : Option ImgPtr) :
    selectLoop l e cur = cur ∨ ∃ kv ∈ l, selectLoop l e cur = some kv.2 := by
  induction l generalizing cur with
  | nil => exact Or.inl rfl
  | cons a rest ih =>
    obtain ⟨k, v⟩ := a
    right
    by_cases hk : k ≥ e
    · exact ⟨(k, v), List.mem_cons_self _ _, by simp [selectLoop, hk]⟩
    · rcases ih (some v) with h | ⟨kv, hkv, h⟩
      · exact ⟨(k, v), List.mem_cons_self _ _, by simp [selectLoop, hk, h]⟩
      · exact ⟨kv, List.mem_cons_of_mem _ hkv, by simp [selectLoop, hk, h]⟩

theorem DarkInv_new (Profile : ConfigSection) (port : Int) (heap : ImageHeap) :
    DarkInv (GuideCamera.new Profile port, heap) := by
  refine ⟨List.Pairwise.nil, ?_, ?_, Or.inl rfl⟩
  · intro k p h
    exact Option.noConfusion h
  · intro k1 k2 p h
    exact Option.noConfusion h

theorem DarkInv_SelectDark (cam : GuideCamera) (heap : ImageHeap) (e : Int)
    (hinv : DarkInv (cam, heap)) : DarkInv (cam.SelectDark e, heap) := by
  obtain ⟨hwf, hlive, hinj, _⟩ := hinv
  refine ⟨hwf, hlive, hinj, ?_⟩
  rcases selectLoop_result cam.Darks.entries e none with h | ⟨kv, hkv, h⟩
  · exact Or.inl h
  · exact Or.inr ⟨kv.1, kv.2, h, findEntry_of_mem cam.Darks.entries hwf kv hkv⟩

theorem DarkInv_stored_distinct (cam : GuideCamera) (heap : ImageHeap)
    (hinv : DarkInv (cam, heap)) :
    (cam.Darks.entries.map Prod.snd).Nodup ∧
    ∀ kv ∈ cam.Darks.entries, (heap.read kv.2).isSome = true := by
  obtain ⟨hwf, hlive, hinj, _⟩ := hinv
  constructor
  · have hwf' : cam.Darks.entries.Pairwise (fun a b => a.1 < b.1) := hwf
    have hnd : cam.Darks.entries.Nodup := by
      refine List.Pairwise.imp ?_ hwf'
      intro a b h hab
      rw [hab] at h
      exact lt_irrefl _ h
    refine List.Nodup.map_on ?_ hnd
    intro a ha b hb hab
    have h1 := findEntry_of_mem cam.Darks.entries hwf a ha
    have h2 := findEntry_of_mem cam.Darks.entries hwf b hb
    rw [← hab] at h2
    have hk : a.1 = b.1 := hinj a.1 b.1 a.2 h1 h2
    exact Prod.ext hk hab
  · intro kv hkv
    exact hlive kv.1 kv.2 (findEntry_of_mem cam.Darks.entries hwf kv hkv)

theorem DarkInv_ClearDarks (cam cam' : GuideCamera) (heap heap' : ImageHeap)
    (h : cam.ClearDarks heap = some (cam', heap')) (hinv : DarkInv (cam, heap)) :
    DarkInv (cam', heap') := by
  obtain ⟨hnd, hl⟩ := DarkInv_stored_distinct cam heap hinv
  obtain ⟨heap1, hloop, _, _⟩ := clearLoop_frees cam.Darks.entries heap hnd hl
  simp only [GuideCamera.ClearDarks, hloop, Option.some.injEq, Prod.mk.injEq] at h
  obtain ⟨rfl, rfl⟩ := h
  refine ⟨List.Pairwise.nil, ?_, ?_, Or.inl rfl⟩
  · intro k p hf
    exact Option.noConfusion hf
  · intro k1 k2 p hf
    exact Option.noConfusion hf

theorem DarkInv_AddDark (cam cam' : GuideCamera) (heap heap' : ImageHeap) (p : ImgPtr)
    (img : usImage) (hinv : DarkInv (cam, heap)) (hfresh : heap.read p = none)
    (h : cam.AddDark (heap.alloc p img) p = some (cam', heap')) :
    DarkInv (cam', heap') := by
  obtain ⟨hwf, hlive0, hinj0, hcur0⟩ := hinv
  have hwf0 : cam.Darks.entries.Pairwise (fun a b => a.1 < b.1) := hwf
  have hlive : ∀ k q, cam.Darks.find k = some q → (heap.read q).isSome = true := hlive0
  have hinj : ∀ k1 k2 q, cam.Darks.find k1 = some q → cam.Darks.find k2 = some q → k1 = k2 :=
    hinj0
  have hcur : cam.CurrentDarkFrame = none ∨
      ∃ k c, cam.CurrentDarkFrame = some c ∧ cam.Darks.find k = some c := hcur0
  have hl2 : (heap.alloc p img).read p = some img := read_alloc_same heap p img
  have hsame : (cam.Darks.assign img.ImgExpDur p).find img.ImgExpDur = some p :=
    findEntry_assign_same _ _ _
  have hother : ∀ k, k ≠ img.ImgExpDur →
      (cam.Darks.assign img.ImgExpDur p).find k = cam.Darks.find k :=
    fun k hk => findEntry_assign_other _ _ _ k hk
  have hwf' : (cam.Darks.assign img.ImgExpDur p).WF := pairwise_assignEntry _ _ _ hwf0
  have hnotp : ∀ k q, cam.Darks.find k = some q → q ≠ p := by
    intro k q hf hq
    have := hlive k q hf
    rw [hq] at this
    simp only [hfresh, Option.isSome_none] at this
    exact Bool.noConfusion this
  have hinj' : ∀ k1 k2 q, (cam.Darks.assign img.ImgExpDur p).find k1 = some q →
      (cam.Darks.assign img.ImgExpDur p).find k2 = some q → k1 = k2 := by
    intro k1 k2 q h1 h2
    by_cases e1 : k1 = img.ImgExpDur
    · by_cases e2 : k2 = img.ImgExpDur
      · rw [e1, e2]
      · rw [e1, hsame] at h1
        rw [hother k2 e2, ← Option.some.inj h1] at h2
        exact absurd rfl (hnotp k2 p h2)
    · by_cases e2 : k2 = img.ImgExpDur
      · rw [e2, hsame] at h2
        rw [hother k1 e1, ← Option.some.inj h2] at h1
        exact absurd rfl (hnotp k1 p h1)
      · rw [hother k1 e1] at h1
        rw [hother k2 e2] at h2
        exact hinj k1 k2 q h1 h2
  cases hfind : cam.Darks.find img.ImgExpDur with
  | none =>
    rw [AddDark_without_prior cam (heap.alloc p img) p img hl2 hfind] at h
    obtain ⟨rfl, rfl⟩ := Prod.mk.inj (Option.some.inj h)
    refine ⟨hwf', ?_, hinj', ?_⟩
    · intro k q hf
      by_cases e : k = img.ImgExpDur
      · have hf' : (cam.Darks.assign img.ImgExpDur p).find k = some q := hf
        rw [e, hsame] at hf'
        rw [← Option.some.inj hf']
        show ((heap.alloc p img).read p).isSome = true
        rw [hl2]; rfl
      · have hf' : cam.Darks.find k = some q := by rw [← hother k e]; exact hf
        show ((heap.alloc p img).read q).isSome = true
        rw [read_alloc_other heap p q img (hnotp k q hf')]
        exact hlive k q hf'
    · rcases hcur with hc | ⟨k, c, hc, hf⟩
      · exact Or.inl hc
      · have hk : k ≠ img.ImgExpDur := by
          intro e
          have hf' : cam.Darks.find k = some c := hf
          rw [e, hfind] at hf'
          exact Option.noConfusion hf'
        exact Or.inr ⟨k, c, hc, (hother k hk).trans hf⟩
  | some prior =>
    have hpl : (heap.read prior).isSome = true := hlive _ prior hfind
    have hpne : prior ≠ p := hnotp _ prior hfind
    have hpl2 : ((heap.alloc p img).read prior).isSome = true := by
      rw [read_alloc_other heap p prior img hpne]; exact hpl
    obtain ⟨heap1, hdel⟩ := delete_of_live (heap.alloc p img) prior hpl2
    rw [AddDark_with_prior cam (heap.alloc p img) heap1 p prior img hl2 hfind hdel] at h
    obtain ⟨rfl, rfl⟩ := Prod.mk.inj (Option.some.inj h)
    refine ⟨hwf', ?_, hinj', ?_⟩
    · intro k q hf
      by_cases e : k = img.ImgExpDur
      · have hf' : (cam.Darks.assign img.ImgExpDur p).find k = some q := hf
        rw [e, hsame] at hf'
        rw [← Option.some.inj hf']
        show (heap1.read p).isSome = true
        rw [read_delete_other _ heap1 prior p hdel (Ne.symm hpne), hl2]; rfl
      · have hf' : cam.Darks.find k = some q := by rw [← hother k e]; exact hf
        have hqprior : q ≠ prior := by
          intro hq
          rw [hq] at hf'
          exact e (hinj k img.ImgExpDur prior hf' hfind)
        show (heap1.read q).isSome = true
        rw [read_delete_other _ heap1 prior q hdel hqprior,
          read_alloc_other heap p q img (hnotp k q hf')]
        exact hlive k q hf'
    · by_cases hpc : some prior = cam.CurrentDarkFrame
      · exact Or.inr ⟨img.ImgExpDur, p, by simp [hpc], hsame⟩
      · rcases hcur with hc | ⟨k, c, hc, hf⟩
        · exact Or.inl (by simp [hpc, hc])
        · have hk : k ≠ img.ImgExpDur := by
            intro e
            have hf' : cam.Darks.find k = some c := hf
            rw [e, hfind] at hf'
            exact hpc (by rw [hc, Option.some.inj hf'])
          refine Or.inr ⟨k, c, ?_, (hother k hk).trans hf⟩
          show (if some prior = cam.CurrentDarkFrame then some p else cam.CurrentDarkFrame)
            = some c
          rw [if_neg hpc]
          exact hc

theorem DarkInv_step (s s' : GuideCamera × ImageHeap) (op : DarkOp) (hinv : DarkInv s)
    (h : stepDark s op = some s') : DarkInv s' := by
  obtain ⟨cam, heap⟩ := s
  obtain ⟨cam', heap'⟩ := s'
  cases op with
  | addDark p img =>
    simp only [stepDark] at h
    cases hr : heap.read p with
    | none =>
      rw [hr] at h
      exact DarkInv_AddDark cam cam' heap heap' p img hinv hr h
    | some _ =>
      rw [hr] at h
      exact Option.noConfusion h
  | selectDark e =>
    simp only [stepDark, Option.some.injEq, Prod.mk.injEq] at h
    obtain ⟨rfl, rfl⟩ := h
    exact DarkInv_SelectDark cam heap e hinv
  | clearDarks =>
    simp only [stepDark] at h
    exact DarkInv_ClearDarks cam cam' heap heap' h hinv

theorem DarkInv_run (ops : List DarkOp) (s s' : GuideCamera × ImageHeap) (hinv : DarkInv s)
    (h : runDark ops s = some s') : DarkInv s' := by
  induction ops generalizing s with
  | nil =>
    simp only [runDark, Option.some.injEq] at h
    rw [← h]; exact hinv
  | cons op ops ih =>
    simp only [runDark] at h
    cases hs : stepDark s op with
    | none => rw [hs] at h; exact Option.noConfusion h
    | some s1 =>
      rw [hs] at h
      exact ih s1 (DarkInv_step s s1 op hinv hs) h

theorem stepDark_defined (s : GuideCamera × ImageHeap) (hinv : DarkInv s) :
    (∀ e, (stepDark s (DarkOp.selectDark e)).isSome = true) ∧
    (stepDark s DarkOp.clearDarks).isSome = true ∧
    (∀ p img, s.2.read p = none → (stepDark s (DarkOp.addDark p img)).isSome = true) := by
  obtain ⟨cam, heap⟩ := s
  refine ⟨fun _ => rfl, ?_, ?_⟩
  · obtain ⟨hnd, hl⟩ := DarkInv_stored_distinct cam heap hinv
    obtain ⟨heap1, hloop, _, _⟩ := clearLoop_frees cam.Darks.entries heap hnd hl
    simp only [stepDark, GuideCamera.ClearDarks, hloop, Option.isSome_some]
  · intro p img hfresh
    obtain ⟨_, hlive, _, _⟩ := hinv
    have hl2 : (heap.alloc p img).read p = some img := read_alloc_same heap p img
    have hfresh' : heap.read p = none := hfresh
    simp only [stepDark, hfresh']
    cases hfind : cam.Darks.find img.ImgExpDur with
    | none =>
      rw [AddDark_without_prior cam (heap.alloc p img) p img hl2 hfind]; rfl
    | some prior =>
      have hpl : (heap.read prior).isSome = true := hlive _ prior hfind
      have hpne : prior ≠ p := by
        intro hq
        rw [hq, hfresh'] at hpl
        exact Bool.noConfusion hpl
      have hpl2 : ((heap.alloc p img).read prior).isSome = true := by
        rw [read_alloc_other heap p prior img hpne]; exact hpl
      obtain ⟨heap1, hdel⟩ := delete_of_live (heap.alloc p img) prior hpl2
      rw [AddDark_with_prior cam (heap.alloc p img) heap1 p prior img hl2 hfind hdel]; rfl

/-- C18: in every state reached from a newly constructed camera by a sequence of `AddDark`
(each with a newly allocated dark frame), `SelectDark` and `ClearDarks` calls, the current
dark frame is null or a dark frame stored in the library, and that frame is live, so it is
none of the frames `AddDark` or `ClearDarks` has freed; every further such call is defined
in that state. -/
theorem current_dark_is_stored (Profile : ConfigSection) (port : Int) (heap0 : ImageHeap)
    (ops : List DarkOp) (cam : GuideCamera) (heap : ImageHeap)
    (hrun : runDark ops (GuideCamera.new Profile port, heap0) = some (cam, heap)) :
    (cam.CurrentDarkFrame = none ∨
      ∃ k p, cam.CurrentDarkFrame = some p ∧ cam.Darks.find k = some p ∧
        (heap.read p).isSome = true) ∧
    (∀ e, (stepDark (cam, heap) (DarkOp.selectDark e)).isSome = true) ∧
    (stepDark (cam, heap) DarkOp.clearDarks).isSome = true ∧
    (∀ p img, heap.read p = none →
      (stepDark (cam, heap) (DarkOp.addDark p img)).isSome = true) := by
  have hinv : DarkInv (cam, heap) :=
    DarkInv_run ops _ _ (DarkInv_new Profile port heap0) hrun
  refine ⟨?_, stepDark_defined (cam, heap) hinv⟩
  obtain ⟨_, hlive, _, hcur⟩ := hinv
  rcases hcur with hc | ⟨k, p, hc, hf⟩
  · exact Or.inl hc
  · exact Or.inr ⟨k, p, hc, hf, hlive k p hf⟩

theorem current_dark_is_stored_witness :
    (replayCamera.CurrentDarkFrame = none ∨
      ∃ k p, replayCamera.CurrentDarkFrame = some p ∧ replayCamera.Darks.find k = some p ∧
        (replayHeap.read p).isSome = true) ∧
    (∀ e, (stepDark (replayCamera, replayHeap) (DarkOp.selectDark e)).isSome = true) ∧
    (stepDark (replayCamera, replayHeap) DarkOp.clearDarks).isSome = true ∧
    (∀ p img, replayHeap.read p = none →
      (stepDark (replayCamera, replayHeap) (DarkOp.addDark p img)).isSome = true) :=
  current_dark_is_stored { entries := [] } 0 { live := [] } replayOps replayCamera replayHeap
    (by decide)

